import Mathlib

/-! SafeHome client scripts: alert stream, push registration, face enrollment.

A shallow embedding of `app/static/js/realtime.js`,
`app/static/js/notifications.js` and `app/static/js/face-enrollment.js`.  Every script function becomes a Lean
function from its inputs (arguments, browser environment, outcome of each
awaited operation) to the list of observable effects it performs, in source
order, together with the exception it lets escape, if any.
-/

set_option autoImplicit false

namespace SafeHome

/-! ## JavaScript values -/

/-- Primitive JavaScript values as they occur in JSON payloads.  `undefined`
is the value of a property that is missing.  Numbers are restricted to
integers (identifiers and counts). -/
inductive JPrim where
  | undefined
  | null
  | bool (b : Bool)
  | num (n : Int)
  | str (s : String)
  deriving DecidableEq, Repr

/-- ToBoolean. -/
def JPrim.truthy : JPrim → Bool
  | .undefined => false
  | .null => false
  | .bool b => b
  | .num n => n != 0
  | .str s => s != ""

/-- ToString, as applied by template literals and by property-key coercion.
An integer of magnitude below 2^53 prints in decimal.  Larger numbers print as
the platform prints a double (in exponent form from 1e21 on), which is given
by `printNumber`. -/
def JPrim.toStr (printNumber : Int → String) : JPrim → String
  | .undefined => "undefined"
  | .null => "null"
  | .bool true => "true"
  | .bool false => "false"
  | .num n => if n.natAbs < 9007199254740992 then toString n else printNumber n
  | .str s => s

/-- Exceptions raised by the platform operations the scripts use. -/
inductive JSError where
  | typeError
  | syntaxError
  | networkError
  | platformError
  | referenceError
  deriving DecidableEq, Repr

/-- The `length` of a JavaScript string, counted in UTF-16 code units. -/
def utf16Length (s : String) : Nat :=
  (s.data.map (fun c => if c.val.toNat < 65536 then 1 else 2)).sum

/-- An alert as delivered on the `new_alert` event: an object whose
properties hold primitives. -/
structure Alert where
  id : JPrim
  title : JPrim
  message : JPrim
  severity : JPrim
  created_at : JPrim
  deriving DecidableEq, Repr

/-- A property value of a parsed response body: a primitive or an array of
alerts. -/
inductive JField where
  | prim (p : JPrim)
  | array (items : List Alert)
  deriving DecidableEq, Repr

/-- ToBoolean on a property value; arrays are objects, hence truthy. -/
def JField.truthy : JField → Bool
  | .prim p => p.truthy
  | .array _ => true

/-- Reading `.length`: throws on `undefined` and `null`, is the element count
of an array and the code-unit count of a string, and is `undefined` (here
`none`) on booleans and numbers. -/
def JField.length : JField → Except JSError (Option Nat)
  | .prim .undefined => .error .typeError
  | .prim .null => .error .typeError
  | .prim (.str s) => .ok (some (utf16Length s))
  | .prim (.bool _) => .ok none
  | .prim (.num _) => .ok none
  | .array items => .ok (some items.length)

/-- A parsed JSON response body: either a bare value or an object. -/
inductive JBody where
  | value (v : JField)
  | object (fields : List (String × JField))
  deriving DecidableEq, Repr

/-- Reading a named property (`success`, `alerts`, `device_id`, `message`) of
a parsed body: throws on `null`, is `undefined` on other bare values and on
objects that lack the property. -/
def JBody.get (data : JBody) (key : String) : Except JSError JField :=
  match data with
  | .value (.prim .null) => .error .typeError
  | .value (.prim .undefined) => .error .typeError
  | .value _ => .ok (.prim .undefined)
  | .object fields => .ok ((fields.lookup key).getD (.prim .undefined))

/-- Outcome of `await fetch(...)` followed by `await response.json()`. -/
inductive FetchResult where
  | networkError
  | invalidJson
  | json (data : JBody)
  deriving DecidableEq, Repr

/-- The value the two awaits deliver, or the exception they raise. -/
def FetchResult.await : FetchResult → Except JSError JBody
  | .networkError => .error .networkError
  | .invalidJson => .error .syntaxError
  | .json data => .ok data

/-! ## Effects -/

/-- A DOM element created by the scripts. -/
structure Element where
  tag : String
  id : String
  className : String
  style : String
  attrs : List (String × String)
  innerHTML : String
  deriving DecidableEq, Repr

/-- An HTTP request issued through `fetch`.  `body` is the object handed to
`JSON.stringify`, property by property. -/
structure Request where
  method : String
  url : String
  headers : List (String × String)
  body : List (String × String)
  deriving DecidableEq, Repr

inductive LogLevel where
  | log
  | warn
  | error
  deriving DecidableEq, Repr

/-- Arguments printed after the leading text of a console call. -/
inductive LogArg where
  | prim (p : JPrim)
  | field (v : JField)
  | exn (e : JSError)
  | text (s : String)
  deriving DecidableEq, Repr

/-- What a timer does when it fires. -/
inductive TimerAction where
  | removeElement (el : Element)
  | updateUnreadCount
  deriving DecidableEq, Repr

/-- Observable effects, in the order the scripts perform them. -/
inductive Effect where
  | console (level : LogLevel) (text : String) (args : List LogArg)
  | appendChild (el : Element)
  | removeElement (el : Element)
  | addClickListener (elementId : String)
  | newNotification (title : JPrim) (body : JPrim) (icon : String) (tag : String)
  | requestPermission
  | setTimeout (action : TimerAction) (delay : Nat)
  | setInterval (action : TimerAction) (delay : Nat)
  | fetch (req : Request)
  | firebaseMessaging
  | onMessage
  | getToken (vapidKey : String)
  | loadEntries
  | updateDashboard
  deriving DecidableEq, Repr

/-- Effects performed by a block of code, and the exception that ended it
early, if any. -/
structure Run where
  effects : List Effect
  thrown : Option JSError
  deriving DecidableEq, Repr

/-- The construct `try { body } catch (error) { handler }`. -/
def Run.catch (body : Run) (handler : JSError → List Effect) : Run :=
  match body.thrown with
  | none => body
  | some e => ⟨body.effects ++ handler e, none⟩

/-- The browser state the scripts read. -/
structure Env where
  /-- Result of `'Notification' in window`. -/
  notificationSupported : Bool
  /-- Value of `Notification.permission`. -/
  permission : String
  /-- Result of `typeof firebase !== 'undefined'`. -/
  firebaseLoaded : Bool
  /-- Value of `navigator.userAgent`. -/
  userAgent : String
  /-- Value of `window.location.pathname`. -/
  pathname : String
  /-- Result of `typeof loadEntries === 'function'`. -/
  hasLoadEntries : Bool
  /-- Result of `typeof updateDashboard === 'function'`. -/
  hasUpdateDashboard : Bool
  /-- Rendering `new Date(v).toLocaleTimeString()`, which depends on the locale. -/
  localeTime : JPrim → String
  /-- ToString on a number of magnitude 2^53 or more. -/
  printNumber : Int → String

/-! ## realtime.js -/

/-- Own properties of the object literal in `showAlertNotification`. -/
def severityTable : List (String × String) :=
  [("low", "info"), ("medium", "warning"), ("high", "warning"), ("critical", "danger")]

/-- Property names every object literal inherits from `Object.prototype`. -/
def objectPrototypeKeys : List String :=
  ["constructor", "__defineGetter__", "__defineSetter__", "hasOwnProperty",
   "__lookupGetter__", "__lookupSetter__", "isPrototypeOf", "propertyIsEnumerable",
   "toString", "valueOf", "__proto__", "toLocaleString"]

/-- A value found by indexing the severity object literal: one of its own
strings, or a member inherited from `Object.prototype`. -/
inductive SeverityValue where
  | str (s : String)
  | inherited (key : String)
  deriving DecidableEq, Repr

/-- The expression `{...}[key]`: own properties first, then the prototype;
`none` is `undefined`. -/
def severityLookup (key : String) : Option SeverityValue :=
  match severityTable.lookup key with
  | some v => some (.str v)
  | none => if key ∈ objectPrototypeKeys then some (.inherited key) else none

/-- ToBoolean: inherited members are functions or objects, hence truthy. -/
def SeverityValue.truthy : SeverityValue → Bool
  | .str s => s != ""
  | .inherited _ => true

/-- ToString inside the template literal.  Inherited members are built-in
functions, printed as native code under their own name (`constructor` is the
function `Object`), except `__proto__`, which is the prototype object. -/
def SeverityValue.toStr : SeverityValue → String
  | .str s => s
  | .inherited key =>
    if key = "__proto__" then "[object Object]"
    else "function " ++ (if key = "constructor" then "Object" else key)
      ++ "() \x7b [native code] \x7d"

/-- The constant `severityClass`: `{...}[alert.severity] || 'info'`. -/
def severityClass (env : Env) (alert : Alert) : SeverityValue :=
  match severityLookup (alert.severity.toStr env.printNumber) with
  | some v => if v.truthy then v else .str "info"
  | none => .str "info"

/-- The banner element built by `showAlertNotification`. -/
def alertBanner (env : Env) (alert : Alert) : Element :=
  { tag := "div"
    id := ""
    className := "alert alert-" ++ (severityClass env alert).toStr
      ++ " alert-dismissible fade show position-fixed"
    style := "top: 70px; right: 20px; z-index: 9999; min-width: 300px;"
    attrs := []
    innerHTML := "\n        <strong>" ++ alert.title.toStr env.printNumber
      ++ "</strong><br>\n        "
      ++ alert.message.toStr env.printNumber ++ "<br>\n        <small class=\"text-muted\">"
      ++ env.localeTime alert.created_at
      ++ "</small>\n        <button type=\"button\" class=\"btn-close\" data-bs-dismiss=\"alert\"></button>\n    " }

/-- Function `showAlertNotification(alert)`. -/
def showAlertNotification (env : Env) (alert : Alert) : List Effect :=
  [Effect.appendChild (alertBanner env alert)]
  ++ (if env.notificationSupported && env.permission == "granted" then
        [Effect.newNotification alert.title alert.message "/static/icon.png"
          ("alert-" ++ alert.id.toStr env.printNumber)]
      else [])
  ++ [Effect.setTimeout (.removeElement (alertBanner env alert)) 10000]

/-- The badge element `#unread-count`, as far as the script touches it. -/
structure Badge where
  textContent : String
  display : String
  deriving DecidableEq, Repr

/-- The request `fetch('/alerts/unread')`. -/
def unreadRequest : Request :=
  { method := "GET", url := "/alerts/unread", headers := [], body := [] }

/-- The `try` block of `updateUnreadCount`: the badge it leaves behind, or the
exception raised.  All writes to the badge come after the last operation that
can throw. -/
def updateUnreadCountTry (res : FetchResult) (badge : Option Badge) :
    Except JSError (Option Badge) := do
  let data ← res.await
  let success ← data.get "success"
  if success.truthy then
    match badge with
    | some b =>
      let alerts ← data.get "alerts"
      let len ← alerts.length
      match len with
      | some n =>
        if n > 0 then
          pure (some { textContent := toString n, display := "inline" })
        else
          pure (some { b with display := "none" })
      | none => pure (some { b with display := "none" })
    | none => pure none
  else
    pure badge

/-- Result of one call of `updateUnreadCount`. -/
structure UnreadUpdate where
  badge : Option Badge
  run : Run
  deriving DecidableEq, Repr

/-- Function `updateUnreadCount()`, given the outcome of its fetch and the
badge element found by `getElementById` (`none` when absent). -/
def updateUnreadCount (res : FetchResult) (badge : Option Badge) : UnreadUpdate :=
  match updateUnreadCountTry res badge with
  | .ok b => { badge := b, run := ⟨[Effect.fetch unreadRequest], none⟩ }
  | .error e =>
    { badge := badge
      run := Run.catch ⟨[Effect.fetch unreadRequest], some e⟩
        (fun err => [Effect.console .error "Error updating unread count:" [.exn err]]) }

/-- Handler of the `new_alert` socket event. -/
def onNewAlert (env : Env) (data : Alert) (res : FetchResult) (badge : Option Badge) :
    UnreadUpdate :=
  let u := updateUnreadCount res badge
  { badge := u.badge
    run := ⟨[Effect.console .log "New alert received:" []]
      ++ showAlertNotification env data ++ u.run.effects, u.run.thrown⟩ }

/-- Top-level statements of `realtime.js` that run when the script loads: the
permission request, the first call of `updateUnreadCount` and the polling
timer. -/
def realtimeLoad (env : Env) (res : FetchResult) (badge : Option Badge) : UnreadUpdate :=
  let u := updateUnreadCount res badge
  { badge := u.badge
    run := ⟨(if env.notificationSupported && env.permission == "default" then
          [Effect.requestPermission] else [])
        ++ u.run.effects ++ [Effect.setInterval .updateUnreadCount 30000], u.run.thrown⟩ }

/-! ## notifications.js

Awaited operations are given by their outcome, and a function that is called
without `await` has its effects listed at the call site: effects appear in
program order, and the interleaving of separate tasks is not modelled. -/

def VAPID_KEY : String := "YOUR_VAPID_PUBLIC_KEY"

/-- The `notification` part of a push payload. -/
structure NotificationPart where
  title : Option String
  body : Option String
  image : Option String
  deriving DecidableEq, Repr

/-- A push payload: `data` maps strings to strings; either part may be
missing. -/
structure Payload where
  notification : Option NotificationPart
  data : Option (List (String × String))
  deriving DecidableEq, Repr

/-- Reading `data.key` after `const data = payload.data || {}`. -/
def Payload.dataField (payload : Payload) (key : String) : Option String :=
  (payload.data.getD []).lookup key

/-- The expression `value || fallback` on an optional string. -/
def orElse (value : Option String) (fallback : String) : String :=
  match value with
  | some s => if s != "" then s else fallback
  | none => fallback

/-- Variable `iconClass` of `showForegroundNotification` after the branch on
`data.type`. -/
def iconClass (payload : Payload) : String :=
  if payload.dataField "type" = some "entry_alert" then
    if payload.dataField "is_known" = some "True" then "bi-person-check"
    else "bi-person-exclamation"
  else if payload.dataField "type" = some "door_action" then
    if payload.dataField "action" = some "door_opened" then "bi-door-open"
    else "bi-door-closed"
  else "bi-info-circle"

/-- Variable `headerClass` of `showForegroundNotification` after the branch on
`data.type`. -/
def headerClass (payload : Payload) : String :=
  if payload.dataField "type" = some "entry_alert" then
    if payload.dataField "is_known" = some "True" then "text-success"
    else "text-danger"
  else if payload.dataField "type" = some "door_action" then
    if payload.dataField "action" = some "door_opened" then "text-success"
    else "text-danger"
  else "text-primary"

/-- The `<img>` fragment, present when `image` is truthy. -/
def toastImage (image : Option String) : String :=
  match image with
  | some src =>
    if src != "" then
      "<img src=\"" ++ src ++ "\" class=\"img-fluid mb-2 rounded\" alt=\"Notification image\">"
    else ""
  | none => ""

/-- The call-to-action fragment with the link to the entries page. -/
def reviewBlock : String :=
  "\n                <div class=\"mt-2 pt-2 border-top\">\n                    <a href=\"/entries\" class=\"btn btn-sm btn-primary w-100\">Review Entry</a>\n                </div>\n            "

/-- The fragment chosen by `data.action_required === 'True'`. -/
def toastAction (payload : Payload) : String :=
  if payload.dataField "action_required" = some "True" then reviewBlock else ""

/-- The string assigned to `toast.innerHTML`. -/
def toastHTML (payload : Payload) : String :=
  "\n        <div class=\"toast-header\">\n            <i class=\"bi "
    ++ iconClass payload ++ " " ++ headerClass payload
    ++ " me-2\"></i>\n            <strong class=\"me-auto\">"
    ++ orElse (payload.notification.bind (fun n => n.title)) "Notification"
    ++ "</strong>\n            <small class=\"text-muted\">Just now</small>\n            <button type=\"button\" class=\"btn-close\" data-bs-dismiss=\"toast\"></button>\n        </div>\n        <div class=\"toast-body\">\n            "
    ++ toastImage (payload.notification.bind (fun n => n.image))
    ++ "\n            <p class=\"mb-0\">"
    ++ orElse (payload.notification.bind (fun n => n.body)) ""
    ++ "</p>\n            "
    ++ toastAction payload
    ++ "\n        </div>\n    "

/-- The toast element built by `showForegroundNotification`. -/
def foregroundToast (payload : Payload) : Element :=
  { tag := "div"
    id := ""
    className := "toast show position-fixed top-0 end-0 m-3"
    style := "z-index: 10000;"
    attrs := [("role", "alert"), ("aria-live", "assertive"), ("aria-atomic", "true")]
    innerHTML := toastHTML payload }

/-- Function `showForegroundNotification(payload)`. -/
def showForegroundNotification (payload : Payload) : List Effect :=
  [Effect.appendChild (foregroundToast payload),
   Effect.setTimeout (.removeElement (foregroundToast payload)) 60000]

/-- The element built by `showToast(type, message)`. -/
def statusToast (type message : String) : Element :=
  { tag := "div"
    id := ""
    className := "alert " ++ (if type = "success" then "alert-success" else "alert-danger")
      ++ " alert-dismissible fade show position-fixed"
    style := "top: 80px; right: 20px; z-index: 9999; min-width: 300px; border-radius: 12px; box-shadow: 0 4px 12px rgba(0,0,0,0.1);"
    attrs := []
    innerHTML := "<i class=\"bi "
      ++ (if type = "success" then "bi-check-circle" else "bi-exclamation-circle")
      ++ "\"></i> " ++ message
      ++ " <button type=\"button\" class=\"btn-close\" data-bs-dismiss=\"alert\"></button>" }

/-- Function `showToast(type, message)`. -/
def showToast (type message : String) : List Effect :=
  [Effect.appendChild (statusToast type message),
   Effect.setTimeout (.removeElement (statusToast type message)) 4000]

/-- The request built by `registerToken(token)`. -/
def registerRequest (env : Env) (token : String) : Request :=
  { method := "POST"
    url := "/notifications/register-device"
    headers := [("Content-Type", "application/json")]
    body := [("token", token), ("device_type", "web"), ("device_name", env.userAgent)] }

/-- The part of the `try` block of `registerToken` that follows the call of
`fetch`: the console output, or the exception raised. -/
def registerTokenResume (res : FetchResult) : Except JSError (List Effect) := do
  let data ← res.await
  let success ← data.get "success"
  if success.truthy then
    let deviceId ← data.get "device_id"
    pure [Effect.console .log "Device token registered:" [.field deviceId]]
  else
    let message ← data.get "message"
    pure [Effect.console .error "Token registration failed:" [.field message]]

/-- Function `registerToken(token)`, given the outcome of its request. -/
def registerToken (env : Env) (token : String) (res : FetchResult) : Run :=
  Run.catch
    (match registerTokenResume res with
     | .ok effs => ⟨Effect.fetch (registerRequest env token) :: effs, none⟩
     | .error e => ⟨[Effect.fetch (registerRequest env token)], some e⟩)
    (fun err => [Effect.console .error "Error registering token:" [.exn err]])

/-- Outcome of `firebase.messaging()` and `messaging.getToken(...)`: the first
call throws, the token promise rejects, or it resolves (`none` for a missing
token, `some ""` for an empty one). -/
inductive TokenResult where
  | messagingThrows
  | rejected
  | resolved (token : Option String)
  deriving DecidableEq, Repr

/-- Function `initializeMessaging()`. -/
def initializeMessaging (env : Env) (tok : TokenResult) (res : FetchResult) : Run :=
  Run.catch
    (match tok with
     | .messagingThrows => ⟨[Effect.firebaseMessaging], some .platformError⟩
     | .rejected =>
       ⟨[Effect.firebaseMessaging, Effect.onMessage, Effect.getToken VAPID_KEY],
         some .platformError⟩
     | .resolved token =>
       match token with
       | some t =>
         if t != "" then
           ⟨[Effect.firebaseMessaging, Effect.onMessage, Effect.getToken VAPID_KEY]
             ++ (registerToken env t res).effects, none⟩
         else
           ⟨[Effect.firebaseMessaging, Effect.onMessage, Effect.getToken VAPID_KEY,
             Effect.console .warn
               "No registration token available. Request permission to generate one." []],
             none⟩
       | none =>
         ⟨[Effect.firebaseMessaging, Effect.onMessage, Effect.getToken VAPID_KEY,
           Effect.console .warn
             "No registration token available. Request permission to generate one." []],
           none⟩)
    (fun err => [Effect.console .error "Firebase messaging initialization failed:" [.exn err]])

/-- Outcome of `await Notification.requestPermission()`. -/
inductive PromptResult where
  | rejected
  | resolved (permission : String)
  deriving DecidableEq, Repr

/-- Function `requestPermission()`. -/
def requestPermission (env : Env) (prompt : PromptResult) (tok : TokenResult)
    (res : FetchResult) : Run :=
  Run.catch
    (match prompt with
     | .rejected => ⟨[Effect.requestPermission], some .platformError⟩
     | .resolved permission =>
       if permission = "granted" then
         ⟨[Effect.requestPermission] ++ (initializeMessaging env tok res).effects
           ++ showToast "success" "Notifications enabled!", none⟩
       else
         ⟨[Effect.requestPermission,
           Effect.console .warn "Notification permission denied" []], none⟩)
    (fun err =>
      [Effect.console .error "Error requesting notification permission:" [.exn err]])

/-- The banner element built by `showPermissionRequest`. -/
def permissionBanner : Element :=
  { tag := "div"
    id := "notification-banner"
    className := "alert alert-info alert-dismissible fade show fixed-top m-3 shadow-lg"
    style := "z-index: 9999;"
    attrs := []
    innerHTML := "\n        <div class=\"d-flex align-items-center\">\n            <i class=\"bi bi-bell-fill me-2 fs-4\"></i>\n            <div>\n                <strong>Enable Notifications?</strong>\n                <p class=\"mb-0 small\">Get real-time alerts when someone is at your door.</p>\n            </div>\n            <button class=\"btn btn-primary btn-sm ms-auto me-2\" id=\"enable-notifs-btn\">Enable</button>\n            <button type=\"button\" class=\"btn-close\" data-bs-dismiss=\"alert\"></button>\n        </div>\n    " }

/-- Function `showPermissionRequest()`: appends the banner and attaches the
click listener to its Enable button. -/
def showPermissionRequest : List Effect :=
  [Effect.appendChild permissionBanner, Effect.addClickListener "enable-notifs-btn"]

/-- The click listener of the Enable button: `requestPermission()` followed by
`banner.remove()`. -/
def onEnableClick (env : Env) (prompt : PromptResult) (tok : TokenResult)
    (res : FetchResult) : Run :=
  ⟨(requestPermission env prompt tok res).effects ++ [Effect.removeElement permissionBanner],
    none⟩

/-- The `DOMContentLoaded` listener of `notifications.js`.  Reading
`Notification.permission` throws when the browser has no `Notification`. -/
def onDOMContentLoaded (env : Env) (tok : TokenResult) (res : FetchResult) : Run :=
  if !env.firebaseLoaded then
    ⟨[Effect.console .warn "Firebase SDK not loaded - notifications disabled" []], none⟩
  else if !env.notificationSupported then
    ⟨[], some .referenceError⟩
  else if env.permission = "granted" then
    ⟨(initializeMessaging env tok res).effects, none⟩
  else if env.permission ≠ "denied" then
    ⟨showPermissionRequest, none⟩
  else
    ⟨[], none⟩

/-- What the page offers to user input: whether the Enable button, with its
listener, is in the document. -/
structure Page where
  enableButton : Bool
  deriving DecidableEq, Repr

/-- The page before any script has run. -/
def Page.initial : Page := ⟨false⟩

/-- Event: the document finishes loading. -/
def Page.load (_page : Page) (env : Env) (tok : TokenResult) (res : FetchResult) :
    Page × Run :=
  (⟨(onDOMContentLoaded env tok res).effects.contains (Effect.addClickListener "enable-notifs-btn")⟩,
    onDOMContentLoaded env tok res)

/-- Event: the user clicks where the Enable button is.  Without the button
nothing runs; with it the listener runs and the banner leaves the document. -/
def Page.clickEnable (page : Page) (env : Env) (prompt : PromptResult) (tok : TokenResult)
    (res : FetchResult) : Page × Run :=
  if page.enableButton then (⟨false⟩, onEnableClick env prompt tok res)
  else (page, ⟨[], none⟩)

/-- The requests among a list of effects, in order. -/
def requests (effs : List Effect) : List Request :=
  effs.filterMap (fun e => match e with
    | .fetch req => some req
    | _ => none)

/-- Number of positions of `s` at which `pat` occurs. -/
def occurrences (pat : List Char) : List Char → Nat
  | [] => if pat.isPrefixOf [] then 1 else 0
  | c :: cs => (if pat.isPrefixOf (c :: cs) then 1 else 0) + occurrences pat cs

/-- The method `s.includes(sub)`. -/
def includes (s sub : String) : Bool :=
  0 < occurrences sub.data s.data

/-- The callback passed to `messaging.onMessage`. -/
def onForegroundMessage (env : Env) (payload : Payload) : List Effect :=
  [Effect.console .log "Message received. " []]
  ++ showForegroundNotification payload
  ++ (if includes env.pathname "/entries" && env.hasLoadEntries then [Effect.loadEntries] else [])
  ++ (if (env.pathname == "/" || includes env.pathname "dashboard") && env.hasUpdateDashboard
      then [Effect.updateDashboard] else [])

/-! ## Reading of markup assigned to innerHTML

The tokenizer of the HTML parser, for markup parsed as the content of a `div`.
It is followed through its data, tag, attribute and comment states.  Markup
that leaves what is modelled here is reported as such and not counted: raw
text and foreign elements, `select` and `template`, character references in
the address of an anchor, and any tag inside an open anchor (where the parser
may clone the anchor). -/

/-- A tag under construction: end tag or start tag, lower-cased name, and the
attributes completed so far, in order. -/
structure TagToken where
  isEnd : Bool
  name : List Char
  attrs : List (List Char × List Char)
  deriving DecidableEq, Repr

/-- States of the tokenizer. -/
inductive TokenizerState where
  | data
  | tagOpen
  | endTagOpen
  | tagName (tag : TagToken)
  | beforeAttributeName (tag : TagToken)
  | attributeName (tag : TagToken) (name : List Char)
  | afterAttributeName (tag : TagToken) (name : List Char)
  | beforeAttributeValue (tag : TagToken) (name : List Char)
  | attributeValueDouble (tag : TagToken) (name value : List Char)
  | attributeValueSingle (tag : TagToken) (name value : List Char)
  | attributeValueUnquoted (tag : TagToken) (name value : List Char)
  | afterAttributeValue (tag : TagToken)
  | selfClosingStartTag (tag : TagToken)
  | bogusComment
  | markupDeclarationOpen
  | markupDeclarationDash
  | commentStart
  | commentStartDash
  | comment
  | commentEndDash
  | commentEnd
  | commentEndBang
  | unsupported
  deriving DecidableEq, Repr

/-- The tokenizer together with what has been seen: the number of anchors to
the entries page, and whether an anchor is open. -/
structure Reader where
  state : TokenizerState
  links : Nat
  anchorOpen : Bool
  deriving DecidableEq, Repr

/-- White space inside tags: tab, line feed, form feed, carriage return (which
the input stream turns into a line feed) and space. -/
def isTagSpace (c : Char) : Bool :=
  c.toNat == 9 || c.toNat == 10 || c.toNat == 12 || c.toNat == 13 || c.toNat == 32

/-- ASCII letters. -/
def isAsciiLetter (c : Char) : Bool :=
  (65 ≤ c.toNat && c.toNat ≤ 90) || (97 ≤ c.toNat && c.toNat ≤ 122)

/-- Lower-casing of ASCII letters, as applied to tag and attribute names. -/
def lowerAscii (c : Char) : Char :=
  if 65 ≤ c.toNat ∧ c.toNat ≤ 90 then Char.ofNat (c.toNat + 32) else c

/-- Elements after whose start tag the parser does not go on as modelled: raw
text elements, foreign content, and elements whose content is dropped or kept
apart. -/
def unmodelledElements : List (List Char) :=
  ["script".data, "style".data, "textarea".data, "title".data, "xmp".data, "iframe".data,
   "noembed".data, "noframes".data, "noscript".data, "plaintext".data, "svg".data,
   "math".data, "select".data, "template".data]

/-- A completed tag reaches the tree builder. -/
def Reader.emit (r : Reader) (tag : TagToken) : Reader :=
  if tag.isEnd then
    if r.anchorOpen then
      if tag.name = ['a'] then { r with state := .data, anchorOpen := false }
      else { r with state := .unsupported }
    else { r with state := .data }
  else if r.anchorOpen then { r with state := .unsupported }
  else if tag.name ∈ unmodelledElements then { r with state := .unsupported }
  else if tag.name = ['a'] then
    match tag.attrs.lookup "href".data with
    | some address =>
      if address.contains '&' then { r with state := .unsupported }
      else
        { state := .data
          links := r.links + (if address = "/entries".data then 1 else 0)
          anchorOpen := true }
    | none => { r with state := .data, anchorOpen := true }
  else { r with state := .data }

/-- The tag with one more completed attribute. -/
def TagToken.push (tag : TagToken) (name value : List Char) : TagToken :=
  { tag with attrs := tag.attrs ++ [(name, value)] }

/-- The before-attribute-name state, which other states re-enter. -/
def Reader.beforeAttributeName (r : Reader) (tag : TagToken) (c : Char) : Reader :=
  if isTagSpace c then { r with state := .beforeAttributeName tag }
  else if c = '/' then { r with state := .selfClosingStartTag tag }
  else if c = '>' then r.emit tag
  else { r with state := .attributeName tag [lowerAscii c] }

/-- One character of input. -/
def Reader.step (r : Reader) (c : Char) : Reader :=
  match r.state with
  | .data => if c = '<' then { r with state := .tagOpen } else r
  | .tagOpen =>
    if c = '!' then { r with state := .markupDeclarationOpen }
    else if c = '/' then { r with state := .endTagOpen }
    else if isAsciiLetter c then { r with state := .tagName ⟨false, [lowerAscii c], []⟩ }
    else if c = '?' then { r with state := .bogusComment }
    else if c = '<' then { r with state := .tagOpen }
    else { r with state := .data }
  | .endTagOpen =>
    if isAsciiLetter c then { r with state := .tagName ⟨true, [lowerAscii c], []⟩ }
    else if c = '>' then { r with state := .data }
    else { r with state := .bogusComment }
  | .tagName tag =>
    if isTagSpace c then { r with state := .beforeAttributeName tag }
    else if c = '/' then { r with state := .selfClosingStartTag tag }
    else if c = '>' then r.emit tag
    else { r with state := .tagName { tag with name := tag.name ++ [lowerAscii c] } }
  | .beforeAttributeName tag => r.beforeAttributeName tag c
  | .attributeName tag name =>
    if isTagSpace c then { r with state := .afterAttributeName tag name }
    else if c = '/' then { r with state := .selfClosingStartTag (tag.push name []) }
    else if c = '>' then r.emit (tag.push name [])
    else if c = '=' then { r with state := .beforeAttributeValue tag name }
    else { r with state := .attributeName tag (name ++ [lowerAscii c]) }
  | .afterAttributeName tag name =>
    if isTagSpace c then { r with state := .afterAttributeName tag name }
    else if c = '/' then { r with state := .selfClosingStartTag (tag.push name []) }
    else if c = '=' then { r with state := .beforeAttributeValue tag name }
    else if c = '>' then r.emit (tag.push name [])
    else { r with state := .attributeName (tag.push name []) [lowerAscii c] }
  | .beforeAttributeValue tag name =>
    if isTagSpace c then { r with state := .beforeAttributeValue tag name }
    else if c = '"' then { r with state := .attributeValueDouble tag name [] }
    else if c = '\'' then { r with state := .attributeValueSingle tag name [] }
    else if c = '>' then r.emit (tag.push name [])
    else { r with state := .attributeValueUnquoted tag name [c] }
  | .attributeValueDouble tag name value =>
    if c = '"' then { r with state := .afterAttributeValue (tag.push name value) }
    else { r with state := .attributeValueDouble tag name (value ++ [c]) }
  | .attributeValueSingle tag name value =>
    if c = '\'' then { r with state := .afterAttributeValue (tag.push name value) }
    else { r with state := .attributeValueSingle tag name (value ++ [c]) }
  | .attributeValueUnquoted tag name value =>
    if isTagSpace c then { r with state := .beforeAttributeName (tag.push name value) }
    else if c = '>' then r.emit (tag.push name value)
    else { r with state := .attributeValueUnquoted tag name (value ++ [c]) }
  | .afterAttributeValue tag => r.beforeAttributeName tag c
  | .selfClosingStartTag tag =>
    if c = '>' then r.emit tag else r.beforeAttributeName tag c
  | .bogusComment => if c = '>' then { r with state := .data } else r
  | .markupDeclarationOpen =>
    if c = '-' then { r with state := .markupDeclarationDash }
    else if c = '>' then { r with state := .data }
    else { r with state := .bogusComment }
  | .markupDeclarationDash =>
    if c = '-' then { r with state := .commentStart }
    else if c = '>' then { r with state := .data }
    else { r with state := .bogusComment }
  | .commentStart =>
    if c = '-' then { r with state := .commentStartDash }
    else if c = '>' then { r with state := .data }
    else { r with state := .comment }
  | .commentStartDash =>
    if c = '-' then { r with state := .commentEnd }
    else if c = '>' then { r with state := .data }
    else { r with state := .comment }
  | .comment => if c = '-' then { r with state := .commentEndDash } else r
  | .commentEndDash =>
    if c = '-' then { r with state := .commentEnd } else { r with state := .comment }
  | .commentEnd =>
    if c = '>' then { r with state := .data }
    else if c = '!' then { r with state := .commentEndBang }
    else if c = '-' then r
    else { r with state := .comment }
  | .commentEndBang =>
    if c = '-' then { r with state := .commentEndDash }
    else if c = '>' then { r with state := .data }
    else { r with state := .comment }
  | .unsupported => r

/-- The reader before any input. -/
def Reader.start : Reader :=
  ⟨.data, 0, false⟩

/-- The reader after a piece of input. -/
def Reader.run (r : Reader) (input : List Char) : Reader :=
  input.foldl Reader.step r

/-- Number of anchors whose `href` is "/entries" among the elements the parser
builds from the markup; `none` when the markup leaves what is modelled.  A tag
cut off by the end of the markup builds no element. -/
def entriesLinks (html : String) : Option Nat :=
  match (Reader.start.run html.data).state with
  | .unsupported => none
  | _ => some (Reader.start.run html.data).links

/-! ## face-enrollment.js

The page is given by the script variables and by the elements the functions
read and write.  Elements that the script dereferences without a guard (the
form fields, the progress display, the submit button) are taken to exist;
elements it guards with a null test are optional. -/

/-- ToString on a property value; an array prints its elements, which are
objects, separated by commas. -/
def JField.toStr (printNumber : Int → String) : JField → String
  | .prim p => p.toStr printNumber
  | .array items => ",".intercalate (items.map (fun _ => "[object Object]"))

/-- The characters removed by `String.prototype.trim`: white space and line
terminators. -/
def isTrimmed (c : Char) : Bool :=
  c.toNat == 9 || c.toNat == 10 || c.toNat == 11 || c.toNat == 12 || c.toNat == 13
    || c.toNat == 32 || c.toNat == 160 || c.toNat == 5760
    || (8192 ≤ c.toNat && c.toNat ≤ 8202)
    || c.toNat == 8232 || c.toNat == 8233 || c.toNat == 8239 || c.toNat == 8287
    || c.toNat == 12288 || c.toNat == 65279

/-- The method `s.trim()`. -/
def jsTrim (s : String) : String :=
  ⟨((s.data.dropWhile isTrimmed).reverse.dropWhile isTrimmed).reverse⟩

/-- A file chosen by the user. -/
structure File where
  name : String
  type : String
  deriving DecidableEq, Repr

/-- The value of a form-data entry. -/
inductive FormValue where
  | text (s : String)
  | file (f : File)
  deriving DecidableEq, Repr

/-- An enrolled person as listed by the server. -/
structure Person where
  id : Int
  name : String
  relation : String
  is_resident : Bool
  last_recognized : Option String
  deriving DecidableEq, Repr

/-- A column appended to `#peopleGrid` by `renderPeople`.  Its markup is not
modelled: the card records the person it was built from. -/
structure PersonCard where
  className : String
  datasetName : String
  datasetRelation : String
  person : Person
  deriving DecidableEq, Repr

/-- The element `#enrollResult`. -/
structure ResultBox where
  display : String
  innerHTML : String
  deriving DecidableEq, Repr

/-- Script variables and elements of the enrollment page. -/
structure FacePage where
  /-- Variable `selectedFiles`. -/
  selectedFiles : List File
  /-- Variable `peopleData`. -/
  peopleData : List Person
  /-- Element `#enrollResult`, if present. -/
  enrollResult : Option ResultBox
  /-- Children of `#peopleGrid`, if the grid is present. -/
  peopleGrid : Option (List PersonCard)
  /-- Value of `style.display` of `#emptyState`, if present. -/
  emptyState : Option String
  /-- Value of `style.display` of `#enrollmentProgress`. -/
  progressDisplay : String
  /-- Text of `#progressText`. -/
  progressText : String
  /-- Value of `style.width` of `#progressBar`. -/
  progressWidth : String
  /-- Property `disabled` of `#submitEnroll`. -/
  submitDisabled : Bool
  deriving DecidableEq, Repr

/-- What the timers started by the submit listener do when they fire. -/
inductive FaceTimer where
  | enrollSucceeded (message : JField)
  deriving DecidableEq, Repr

/-- Effects of the enrollment page beyond changes of `FacePage`. -/
inductive FaceEffect where
  | fetch (method url : String) (form : List (String × FormValue))
  | setTimeout (action : FaceTimer) (delay : Nat)
  deriving DecidableEq, Repr

/-- Function `showEnrollResult(type, message)`. -/
def showEnrollResult (type message : String) (page : FacePage) : FacePage :=
  match page.enrollResult with
  | none => page
  | some _ =>
    { page with
      enrollResult := some
        { display := "block"
          innerHTML := "\n        <div class=\"alert "
            ++ (if type = "success" then "alert-success" else "alert-danger")
            ++ " mb-0\" style=\"border-radius: 12px;\">\n            <i class=\"bi "
            ++ (if type = "success" then "bi-check-circle" else "bi-exclamation-circle")
            ++ "\"></i> " ++ message ++ "\n        </div>\n    " } }

/-- The values the submit listener reads from the form. -/
structure EnrollForm where
  /-- Value of `#personName`. -/
  personName : String
  /-- Value of `#relation`. -/
  relation : String
  /-- Property `checked` of `#isResident`. -/
  isResident : Bool
  deriving DecidableEq, Repr

/-- The entries appended to the form data, in order. -/
def enrollFormData (name : String) (form : EnrollForm) (files : List File) :
    List (String × FormValue) :=
  [("person_name", .text name), ("relation", .text form.relation),
   ("is_resident", .text (if form.isResident then "true" else "false"))]
  ++ files.map (fun file => ("images", FormValue.file file))

/-- Result of one run of the submit listener. -/
structure EnrollRun where
  page : FacePage
  effects : List FaceEffect
  deriving DecidableEq, Repr

/-- The `catch` and `finally` blocks of the submit listener, entered from the
given page with the given exception. -/
def enrollFailed (errorMessage : JSError → String) (e : JSError) (page : FacePage) : FacePage :=
  { showEnrollResult "error" ("Network error: " ++ errorMessage e) page with
    progressDisplay := "none", submitDisabled := false }

/-- The click listener of `#submitEnroll`.  `errorMessage` gives the `message`
of an exception and `printNumber` prints a number of magnitude 2^53 or more. -/
def onSubmitEnroll (errorMessage : JSError → String) (printNumber : Int → String)
    (form : EnrollForm) (res : FetchResult) (page : FacePage) : EnrollRun :=
  if jsTrim form.personName = "" then
    ⟨showEnrollResult "error" "Please enter a name." page, []⟩
  else if page.selectedFiles.length < 2 then
    ⟨showEnrollResult "error" "Please upload at least 2 photos with clear face visibility." page,
      []⟩
  else
    let request := FaceEffect.fetch "POST" "/face/enroll"
      (enrollFormData (jsTrim form.personName) form page.selectedFiles)
    let started : FacePage :=
      { page with
        progressDisplay := "block", submitDisabled := true
        progressText := "Processing face encodings...", progressWidth := "50%" }
    match res with
    | .networkError => ⟨enrollFailed errorMessage .networkError started, [request]⟩
    | .invalidJson =>
      ⟨enrollFailed errorMessage .syntaxError { started with progressWidth := "75%" }, [request]⟩
    | .json data =>
      match data.get "success", data.get "message" with
      | .ok success, .ok message =>
        if success.truthy then
          ⟨{ started with
              progressWidth := "100%", progressText := "Syncing to cloud..."
              submitDisabled := false },
            [request, FaceEffect.setTimeout (.enrollSucceeded message) 500]⟩
        else
          ⟨{ showEnrollResult "error"
                (if message.truthy then message.toStr printNumber else "Enrollment failed")
                { started with progressWidth := "100%" } with
              progressDisplay := "none", submitDisabled := false },
            [request]⟩
      | .error e, _ =>
        ⟨enrollFailed errorMessage e { started with progressWidth := "100%" }, [request]⟩
      | _, .error e =>
        ⟨enrollFailed errorMessage e { started with progressWidth := "100%" }, [request]⟩

/-- The requests among the effects of the enrollment page, in order. -/
def faceRequests (effs : List FaceEffect) : List (String × String × List (String × FormValue)) :=
  effs.filterMap (fun e => match e with
    | .fetch method url form => some (method, url, form)
    | _ => none)

/-- The column built for one person; `lower` is `String.prototype.toLowerCase`. -/
def personCard (lower : String → String) (person : Person) : PersonCard :=
  { className := "col-md-4 col-lg-3 mb-3 person-item"
    datasetName := lower person.name
    datasetRelation := person.relation
    person := person }

/-- Function `renderPeople(persons)`. -/
def renderPeople (lower : String → String) (persons : List Person) (page : FacePage) :
    FacePage :=
  match page.peopleGrid with
  | none => page
  | some _ =>
    if persons.length = 0 then
      { page with peopleGrid := some [], emptyState := page.emptyState.map (fun _ => "block") }
    else
      { page with
        peopleGrid := some (persons.map (personCard lower))
        emptyState := page.emptyState.map (fun _ => "none") }

/-- The callback of `peopleData.filter` in `filterPeopleDisplay`. -/
def matchesFilter (lower : String → String) (searchQuery relationFilter : String)
    (p : Person) : Bool :=
  (searchQuery == "" || includes (lower p.name) searchQuery)
    && (relationFilter == "" || p.relation == relationFilter)

/-- Function `filterPeopleDisplay(searchQuery, relationFilter)`. -/
def filterPeopleDisplay (lower : String → String) (searchQuery relationFilter : String)
    (page : FacePage) : FacePage :=
  renderPeople lower (page.peopleData.filter (matchesFilter lower searchQuery relationFilter))
    page

/-- Function `formatTime(isoString)`.  `parseDate` gives the time value of
`new Date(s)` in milliseconds (`none` for an invalid date), `localeDate`
renders `toLocaleDateString()`, and `now` is the time value of `new Date()`.
Integer division by a positive number rounds down, as `Math.floor` does.  With
an invalid date every comparison is false. -/
def formatTime (parseDate : String → Option Int) (localeDate : Option Int → String)
    (now : Int) (isoString : Option String) : String :=
  match isoString with
  | none => "Never"
  | some s =>
    if s = "" then "Never"
    else
      match parseDate s with
      | none => localeDate none
      | some d =>
        if (now - d) / 60000 < 1 then "Just now"
        else if (now - d) / 60000 < 60 then toString ((now - d) / 60000) ++ "m ago"
        else if (now - d) / 60000 < 1440 then toString ((now - d) / 60000 / 60) ++ "h ago"
        else localeDate (some d)

/-! ## Auxiliary definitions for the statements -/

/-- An optional text without the character that opens a tag. -/
def markupFree (v : Option String) : Bool :=
  match v with
  | some s => !s.data.contains '<'
  | none => true

/-- An optional attribute value without the double quote that would end it. -/
def quoteFree (v : Option String) : Bool :=
  match v with
  | some s => !s.data.contains '"'
  | none => true

/-- A payload whose title and body open no tag and whose image address stays
inside its attribute. -/
def Payload.plain (payload : Payload) : Bool :=
  match payload.notification with
  | some n => markupFree n.title && markupFree n.body && quoteFree n.image
  | none => true

/-- A push that asks for review and whose image address ends its attribute and
opens a single-quoted one. -/
def quoteInImage : Payload :=
  { notification := some
      { title := some "Visitor", body := some "At the door",
        image := some "x.jpg\" data-x='" }
    data := some [("action_required", "True")] }

/-- The fixed pieces of the toast template, between its interpolations. -/
def toastPieces : List String :=
  ["\n        <div class=\"toast-header\">\n            <i class=\"bi ",
   " me-2\"></i>\n            <strong class=\"me-auto\">",
   "</strong>\n            <small class=\"text-muted\">Just now</small>\n            <button type=\"button\" class=\"btn-close\" data-bs-dismiss=\"toast\"></button>\n        </div>\n        <div class=\"toast-body\">\n            ",
   "\n            <p class=\"mb-0\">",
   "</p>\n            ",
   "\n        </div>\n    "]

/-- The fixed piece of the toast template at a position. -/
def toastPiece (i : Nat) : String :=
  toastPieces.getD i ""

/-- A browser with notifications granted, used to run the scripts on concrete
inputs. -/
def sampleEnv : Env :=
  { notificationSupported := true
    permission := "granted"
    firebaseLoaded := true
    userAgent := "Mozilla/5.0"
    pathname := "/"
    hasLoadEntries := false
    hasUpdateDashboard := false
    localeTime := fun _ => "10:15:00 AM"
    printNumber := fun n => toString n }

/-- An alert used as array element in concrete runs. -/
def sampleAlert : Alert :=
  ⟨.num 7, .str "Motion detected", .str "Front door", .str "high", .str "2024-05-01T10:15:00Z"⟩

/-- A push whose body text is itself a link to the entries page and which
carries no data. -/
def linkInBody : Payload :=
  { notification := some
      { title := some "Visitor", body := some "<a href=\"/entries\">Open</a>", image := none }
    data := none }

/-- A push with plain texts that asks for review. -/
def reviewPush : Payload :=
  { notification := some
      { title := some "Unknown person", body := some "Someone is at the door",
        image := some "/static/captures/1.jpg" }
    data := some [("type", "entry_alert"), ("is_known", "False"), ("action_required", "True")] }

/-- Effects the user can perceive: changes of the document, whether made at
once or scheduled on a timer, system notifications and the permission prompt.
Console output, requests and calls into the messaging SDK are not. -/
def Effect.userVisible : Effect → Bool
  | .appendChild _ => true
  | .removeElement _ => true
  | .newNotification _ _ _ _ => true
  | .requestPermission => true
  | .setTimeout _ _ => true
  | _ => false

/-- The elements appended to the document by a list of effects, in order. -/
def appended (effs : List Effect) : List Element :=
  effs.filterMap (fun e => match e with
    | .appendChild el => some el
    | _ => none)

/-- The one-shot timers started by a list of effects, in order. -/
def timeouts (effs : List Effect) : List (TimerAction × Nat) :=
  effs.filterMap (fun e => match e with
    | .setTimeout action delay => some (action, delay)
    | _ => none)

/-- The tags of the system notifications raised by a list of effects. -/
def notificationTags (effs : List Effect) : List String :=
  effs.filterMap (fun e => match e with
    | .newNotification _ _ _ tag => some tag
    | _ => none)

/-- A browser in which the user has not yet decided about notifications. -/
def undecidedEnv : Env :=
  { notificationSupported := true
    permission := "default"
    firebaseLoaded := true
    userAgent := "Mozilla/5.0"
    pathname := "/"
    hasLoadEntries := false
    hasUpdateDashboard := false
    localeTime := fun _ => "10:15:00 AM"
    printNumber := fun n => toString n }

/-- The repeating timers started by a list of effects, in order. -/
def intervals (effs : List Effect) : List (TimerAction × Nat) :=
  effs.filterMap (fun e => match e with
    | .setInterval action delay => some (action, delay)
    | _ => none)

/-- A door push that also carries an `is_known` flag. -/
def doorPush (action isKnown : String) : Payload :=
  { notification := none
    data := some [("type", "door_action"), ("action", action), ("is_known", isKnown)] }

/-- A response that claims success and lists the given alerts. -/
def unreadBody (items : List Alert) : FetchResult :=
  .json (.object [("success", .prim (.bool true)), ("alerts", .array items)])

/-- A response that claims success and carries a count where the array of
alerts should be. -/
def countBody : FetchResult :=
  .json (.object [("success", .prim (.bool true)), ("alerts", .prim (.num 5))])

/-- A page with two selected photos and a result box. -/
def enrollPage : FacePage :=
  { selectedFiles := [⟨"a.jpg", "image/jpeg"⟩, ⟨"b.jpg", "image/jpeg"⟩]
    peopleData := []
    enrollResult := some ⟨"none", ""⟩
    peopleGrid := some []
    emptyState := some "none"
    progressDisplay := "none"
    progressText := ""
    progressWidth := "0%"
    submitDisabled := false }

/-- Messages of the exceptions, as one engine words them. -/
def sampleErrorMessage : JSError → String
  | .networkError => "Failed to fetch"
  | _ => "Unexpected token"

/-- A number printer for concrete runs. -/
def samplePrintNumber (n : Int) : String :=
  toString n

/-- A date parser that knows one timestamp, at 1000000 ms. -/
def sampleParseDate (s : String) : Option Int :=
  if s = "2024-05-01T10:00:00Z" then some 1000000 else none

/-- A date renderer for concrete runs. -/
def sampleLocaleDate : Option Int → String
  | some _ => "5/1/2024"
  | none => "Invalid Date"

/-- Three enrolled persons. -/
def samplePeople : List Person :=
  [⟨1, "Ada Lovelace", "family", true, none⟩,
   ⟨2, "Bob Stone", "friend", false, some "2024-05-01T10:00:00Z"⟩,
   ⟨3, "Adam West", "friend", false, none⟩]

/-- A page that lists the three persons. -/
def peoplePage : FacePage :=
  { enrollPage with peopleData := samplePeople }

/-- Lower-casing of the letters A to Z, for concrete runs. -/
def asciiLower (s : String) : String :=
  ⟨s.data.map (fun c => if 65 ≤ c.toNat ∧ c.toNat ≤ 90 then Char.ofNat (c.toNat + 32) else c)⟩

/-! ## Properties of realtime.js -/

/-- The colour chosen for a severity that is neither an own key of the table
nor a name inherited from `Object.prototype` is `info`, and the four own keys
map to info, warning, warning, danger. -/
theorem severityClass_table (env : Env) (alert : Alert)
    (h : alert.severity.toStr env.printNumber ∉ objectPrototypeKeys) :
    severityClass env alert =
      (if alert.severity.toStr env.printNumber = "low" then .str "info"
       else if alert.severity.toStr env.printNumber = "medium" then .str "warning"
       else if alert.severity.toStr env.printNumber = "high" then .str "warning"
       else if alert.severity.toStr env.printNumber = "critical" then .str "danger"
       else .str "info") := by
  unfold severityClass severityLookup severityTable
  by_cases h1 : alert.severity.toStr env.printNumber = "low"
  · simp [h1, List.lookup, SeverityValue.truthy]
  by_cases h2 : alert.severity.toStr env.printNumber = "medium"
  · simp [h2, List.lookup, SeverityValue.truthy]
  by_cases h3 : alert.severity.toStr env.printNumber = "high"
  · simp [h3, List.lookup, SeverityValue.truthy]
  by_cases h4 : alert.severity.toStr env.printNumber = "critical"
  · simp [h4, List.lookup, SeverityValue.truthy]
  have e1 : (alert.severity.toStr env.printNumber == "low") = false := by simpa using h1
  have e2 : (alert.severity.toStr env.printNumber == "medium") = false := by simpa using h2
  have e3 : (alert.severity.toStr env.printNumber == "high") = false := by simpa using h3
  have e4 : (alert.severity.toStr env.printNumber == "critical") = false := by simpa using h4
  simp [List.lookup, e1, e2, e3, e4, h, h1, h2, h3, h4]

/-- C1 (failing input): for an alert whose severity is the string
"constructor", indexing the severity table finds the inherited member
`Object.prototype.constructor`, which is truthy, so the fallback to `info` is
skipped and the banner class is not built from info, warning or danger. -/
theorem showAlertNotification_constructor_severity (env : Env)
    (id title message created : JPrim) :
    (alertBanner env ⟨id, title, message, .str "constructor", created⟩).className
        = "alert alert-function Object() \x7b [native code] \x7d alert-dismissible fade show position-fixed"
      ∧ severityClass env ⟨id, title, message, .str "constructor", created⟩ ≠ .str "info"
      ∧ severityClass env ⟨id, title, message, .str "constructor", created⟩ ≠ .str "warning"
      ∧ severityClass env ⟨id, title, message, .str "constructor", created⟩ ≠ .str "danger" := by
  have hc : severityClass env ⟨id, title, message, .str "constructor", created⟩
      = .inherited "constructor" := by
    unfold severityClass
    simp only [JPrim.toStr]
    decide
  refine ⟨?_, ?_, ?_, ?_⟩
  · simp only [alertBanner, hc]
    decide
  · rw [hc]; decide
  · rw [hc]; decide
  · rw [hc]; decide

/-- C2: when the fetched body is an object with `success: true` and an array
`alerts`, and the badge element exists, `updateUnreadCount` hides the badge
(display "none") if the array is empty, and otherwise sets the badge text to
the decimal array length and its display to "inline". -/
theorem updateUnreadCount_sets_badge (fields : List (String × JField)) (items : List Alert)
    (b : Badge)
    (hs : fields.lookup "success" = some (.prim (.bool true)))
    (ha : fields.lookup "alerts" = some (.array items)) :
    (items.length = 0 →
      (updateUnreadCount (.json (.object fields)) (some b)).badge
        = some { textContent := b.textContent, display := "none" })
    ∧ (0 < items.length →
      (updateUnreadCount (.json (.object fields)) (some b)).badge
        = some { textContent := toString items.length, display := "inline" }) := by
  constructor
  · intro h0
    simp [updateUnreadCount, updateUnreadCountTry, FetchResult.await, JBody.get, hs, ha,
      JField.truthy, JPrim.truthy, JField.length, h0, bind, Except.bind, pure, Except.pure]
  · intro hpos
    simp [updateUnreadCount, updateUnreadCountTry, FetchResult.await, JBody.get, hs, ha,
      JField.truthy, JPrim.truthy, JField.length, hpos, bind, Except.bind, pure, Except.pure]

/-- C2 at a response with two unread alerts and a badge that was hidden, and
at a response with none and a badge that showed "3". -/
theorem updateUnreadCount_sets_badge_witness :
    (updateUnreadCount
        (.json (.object [("success", .prim (.bool true)),
          ("alerts", .array [sampleAlert, sampleAlert])]))
        (some ⟨"", "none"⟩)).badge = some ⟨"2", "inline"⟩
    ∧ (updateUnreadCount
        (.json (.object [("success", .prim (.bool true)), ("alerts", .array [])]))
        (some ⟨"3", "inline"⟩)).badge = some ⟨"3", "none"⟩ :=
  ⟨(updateUnreadCount_sets_badge
      [("success", .prim (.bool true)), ("alerts", .array [sampleAlert, sampleAlert])]
      [sampleAlert, sampleAlert] ⟨"", "none"⟩ (by decide) (by decide)).2 (by decide),
   (updateUnreadCount_sets_badge
      [("success", .prim (.bool true)), ("alerts", .array [])]
      [] ⟨"3", "inline"⟩ (by decide) (by decide)).1 (by decide)⟩

/-! ## Properties of notifications.js -/

/-- Two pieces of markup that continue a common beginning with different
icon names are different. -/
theorem person_icons_differ (pre x y : String)
    (h : pre ++ ("bi-person-check" ++ x) = pre ++ ("bi-person-exclamation" ++ y)) : False := by
  have h2 := congrArg String.data h
  simp only [String.data_append, List.append_cancel_left_eq] at h2
  simp at h2

theorem door_icons_differ (pre x y : String)
    (h : pre ++ ("bi-door-open" ++ x) = pre ++ ("bi-door-closed" ++ y)) : False := by
  have h2 := congrArg String.data h
  simp only [String.data_append, List.append_cancel_left_eq] at h2
  simp at h2

/-- C3: for a payload whose `data.type` is "entry_alert",
`showForegroundNotification` appends one toast, and the icon element in its
markup carries the pair (bi-person-check, text-success) exactly when
`data.is_known` is the string "True"; when `is_known` is absent or any other
string it carries the pair (bi-person-exclamation, text-danger).  The rest of
the markup is the title, image, body and call to action of the payload. -/
theorem entry_alert_icon (payload : Payload)
    (ht : payload.dataField "type" = some "entry_alert") :
    ((iconClass payload = "bi-person-check" ∧ headerClass payload = "text-success")
        ↔ payload.dataField "is_known" = some "True")
    ∧ (payload.dataField "is_known" ≠ some "True" →
        iconClass payload = "bi-person-exclamation" ∧ headerClass payload = "text-danger")
    ∧ ((appended (showForegroundNotification payload)).map (fun el => el.innerHTML)
          = ["\n        <div class=\"toast-header\">\n            <i class=\"bi "
              ++ "bi-person-check" ++ " " ++ "text-success"
              ++ " me-2\"></i>\n            <strong class=\"me-auto\">"
              ++ orElse (payload.notification.bind (fun n => n.title)) "Notification"
              ++ "</strong>\n            <small class=\"text-muted\">Just now</small>\n            <button type=\"button\" class=\"btn-close\" data-bs-dismiss=\"toast\"></button>\n        </div>\n        <div class=\"toast-body\">\n            "
              ++ toastImage (payload.notification.bind (fun n => n.image))
              ++ "\n            <p class=\"mb-0\">"
              ++ orElse (payload.notification.bind (fun n => n.body)) ""
              ++ "</p>\n            "
              ++ toastAction payload
              ++ "\n        </div>\n    "]
        ↔ payload.dataField "is_known" = some "True")
    ∧ (payload.dataField "is_known" ≠ some "True" →
        (appended (showForegroundNotification payload)).map (fun el => el.innerHTML)
          = ["\n        <div class=\"toast-header\">\n            <i class=\"bi "
              ++ "bi-person-exclamation" ++ " " ++ "text-danger"
              ++ " me-2\"></i>\n            <strong class=\"me-auto\">"
              ++ orElse (payload.notification.bind (fun n => n.title)) "Notification"
              ++ "</strong>\n            <small class=\"text-muted\">Just now</small>\n            <button type=\"button\" class=\"btn-close\" data-bs-dismiss=\"toast\"></button>\n        </div>\n        <div class=\"toast-body\">\n            "
              ++ toastImage (payload.notification.bind (fun n => n.image))
              ++ "\n            <p class=\"mb-0\">"
              ++ orElse (payload.notification.bind (fun n => n.body)) ""
              ++ "</p>\n            "
              ++ toastAction payload
              ++ "\n        </div>\n    "]) := by
  have hs : payload.dataField "is_known" = some "True" →
      (appended (showForegroundNotification payload)).map (fun el => el.innerHTML)
          = ["\n        <div class=\"toast-header\">\n            <i class=\"bi "
              ++ "bi-person-check" ++ " " ++ "text-success"
              ++ " me-2\"></i>\n            <strong class=\"me-auto\">"
              ++ orElse (payload.notification.bind (fun n => n.title)) "Notification"
              ++ "</strong>\n            <small class=\"text-muted\">Just now</small>\n            <button type=\"button\" class=\"btn-close\" data-bs-dismiss=\"toast\"></button>\n        </div>\n        <div class=\"toast-body\">\n            "
              ++ toastImage (payload.notification.bind (fun n => n.image))
              ++ "\n            <p class=\"mb-0\">"
              ++ orElse (payload.notification.bind (fun n => n.body)) ""
              ++ "</p>\n            "
              ++ toastAction payload
              ++ "\n        </div>\n    "] := by
    intro hk
    simp [showForegroundNotification, appended, foregroundToast, toastHTML, iconClass, headerClass, ht, hk]
  have hd : payload.dataField "is_known" ≠ some "True" →
      (appended (showForegroundNotification payload)).map (fun el => el.innerHTML)
          = ["\n        <div class=\"toast-header\">\n            <i class=\"bi "
              ++ "bi-person-exclamation" ++ " " ++ "text-danger"
              ++ " me-2\"></i>\n            <strong class=\"me-auto\">"
              ++ orElse (payload.notification.bind (fun n => n.title)) "Notification"
              ++ "</strong>\n            <small class=\"text-muted\">Just now</small>\n            <button type=\"button\" class=\"btn-close\" data-bs-dismiss=\"toast\"></button>\n        </div>\n        <div class=\"toast-body\">\n            "
              ++ toastImage (payload.notification.bind (fun n => n.image))
              ++ "\n            <p class=\"mb-0\">"
              ++ orElse (payload.notification.bind (fun n => n.body)) ""
              ++ "</p>\n            "
              ++ toastAction payload
              ++ "\n        </div>\n    "] := by
    intro hk
    simp [showForegroundNotification, appended, foregroundToast, toastHTML, iconClass, headerClass, ht, hk]
  refine ⟨?_, ?_, ⟨?_, hs⟩, hd⟩
  · by_cases hk : payload.dataField "is_known" = some "True"
    · simp [iconClass, headerClass, ht, hk]
    · simp [iconClass, headerClass, ht, hk]
  · intro hk
    simp [iconClass, headerClass, ht, hk]
  · intro h
    by_contra hk
    rw [hd hk] at h
    simp only [List.cons.injEq, and_true, String.append_assoc] at h
    exact person_icons_differ _ _ _ h.symm

set_option maxRecDepth 100000 in
/-- C3 at an entry alert whose `is_known` is the lower-case string "true". -/
theorem entry_alert_icon_witness :
    (iconClass ⟨none, some [("type", "entry_alert"), ("is_known", "true")]⟩
        = "bi-person-exclamation"
      ∧ headerClass ⟨none, some [("type", "entry_alert"), ("is_known", "true")]⟩
        = "text-danger")
    ∧ (appended (showForegroundNotification
          ⟨none, some [("type", "entry_alert"), ("is_known", "true")]⟩)).map
          (fun el => el.innerHTML)
        = ["\n        <div class=\"toast-header\">\n            <i class=\"bi bi-person-exclamation text-danger me-2\"></i>\n            <strong class=\"me-auto\">Notification</strong>\n            <small class=\"text-muted\">Just now</small>\n            <button type=\"button\" class=\"btn-close\" data-bs-dismiss=\"toast\"></button>\n        </div>\n        <div class=\"toast-body\">\n            \n            <p class=\"mb-0\"></p>\n            \n        </div>\n    "] :=
  ⟨(entry_alert_icon ⟨none, some [("type", "entry_alert"), ("is_known", "true")]⟩
      (by decide)).2.1 (by decide),
   ((entry_alert_icon ⟨none, some [("type", "entry_alert"), ("is_known", "true")]⟩
      (by decide)).2.2.2 (by decide)).trans (by decide)⟩

/-! ### Counting links in the toast markup -/

theorem run_append (r : Reader) (a b : List Char) : r.run (a ++ b) = (r.run a).run b := by
  simp [Reader.run, List.foldl_append]

/-- Text without `<` leaves the reader in the data state. -/
theorem run_text (n : Nat) (open_ : Bool) (cs : List Char) (h : '<' ∉ cs) :
    Reader.run ⟨.data, n, open_⟩ cs = ⟨.data, n, open_⟩ := by
  induction cs with
  | nil => rfl
  | cons c cs ih =>
    have hc : c ≠ '<' := fun e => h (by subst e; exact List.mem_cons_self _ _)
    have hcs : '<' ∉ cs := fun e => h (List.mem_cons_of_mem _ e)
    have hstep : Reader.step ⟨.data, n, open_⟩ c = ⟨.data, n, open_⟩ := by
      simp [Reader.step, hc]
    have := ih hcs
    simp only [Reader.run, List.foldl_cons, hstep] at this ⊢
    exact this

/-- Inside a double-quoted attribute value, text without `"` is added to the
value. -/
theorem run_double (tag : TagToken) (name value : List Char) (n : Nat) (open_ : Bool)
    (cs : List Char) (h : '"' ∉ cs) :
    Reader.run ⟨.attributeValueDouble tag name value, n, open_⟩ cs
      = ⟨.attributeValueDouble tag name (value ++ cs), n, open_⟩ := by
  induction cs generalizing value with
  | nil => simp [Reader.run]
  | cons c cs ih =>
    have hc : c ≠ '"' := fun e => h (by subst e; exact List.mem_cons_self _ _)
    have hcs : '"' ∉ cs := fun e => h (List.mem_cons_of_mem _ e)
    have hstep : Reader.step ⟨.attributeValueDouble tag name value, n, open_⟩ c
        = ⟨.attributeValueDouble tag name (value ++ [c]), n, open_⟩ := by
      simp [Reader.step, hc]
    have := ih (value ++ [c]) hcs
    simp only [Reader.run, List.foldl_cons, hstep, List.append_assoc, List.singleton_append]
      at this ⊢
    exact this

theorem orElse_markupFree (v : Option String) (d : String) (hv : markupFree v = true)
    (hd : '<' ∉ d.data) : '<' ∉ (orElse v d).data := by
  cases v with
  | none => simpa [orElse] using hd
  | some s =>
    simp only [orElse]
    split_ifs
    · simpa [markupFree] using hv
    · exact hd

theorem plain_parts (payload : Payload) (h : payload.plain = true) :
    markupFree (payload.notification.bind (fun n => n.title)) = true
      ∧ markupFree (payload.notification.bind (fun n => n.body)) = true
      ∧ quoteFree (payload.notification.bind (fun n => n.image)) = true := by
  unfold Payload.plain at h
  cases hn : payload.notification with
  | none => simp [markupFree, quoteFree]
  | some n =>
    rw [hn] at h
    simp only [Bool.and_eq_true] at h
    simpa using ⟨h.1.1, h.1.2, h.2⟩

set_option maxRecDepth 1000000 in
/-- C4 (counterexample): a payload without `action_required` whose body text
is a link to the entries page yields a toast with one such link; and a payload
with `action_required` "True" whose image address closes its attribute and
opens a single-quoted one yields a toast with none, the rest of the markup
being swallowed by the open attribute. -/
theorem toast_link_from_body :
    linkInBody.dataField "action_required" ≠ some "True"
      ∧ entriesLinks (toastHTML linkInBody) = some 1
      ∧ quoteInImage.dataField "action_required" = some "True"
      ∧ entriesLinks (toastHTML quoteInImage) = some 0 := by
  decide

set_option maxRecDepth 1000000 in
/-- C4 (amended): when title and body of the payload contain no `<` and its
image address contains no `"`, the toast markup, read as the parser reads it,
holds exactly one link to the entries page if `data.action_required` is the
string "True", and none otherwise. -/
theorem toast_links_of_plain (payload : Payload) (h : payload.plain = true) :
    entriesLinks (toastHTML payload)
      = some (if payload.dataField "action_required" = some "True" then 1 else 0) := by
  obtain ⟨ht, hb, hi⟩ := plain_parts payload h
  have hpieces : toastHTML payload
      = toastPiece 0 ++ iconClass payload ++ " " ++ headerClass payload ++ toastPiece 1
        ++ orElse (payload.notification.bind (fun n => n.title)) "Notification"
        ++ toastPiece 2 ++ toastImage (payload.notification.bind (fun n => n.image))
        ++ toastPiece 3 ++ orElse (payload.notification.bind (fun n => n.body)) ""
        ++ toastPiece 4 ++ toastAction payload ++ toastPiece 5 := rfl
  have hicon : ((((Reader.start.run (toastPiece 0).data).run (iconClass payload).data).run
      [' ']).run (headerClass payload).data).run (toastPiece 1).data
      = ⟨.data, 0, false⟩ := by
    unfold iconClass headerClass
    split_ifs <;> decide
  have htitle := run_text 0 false _ (orElse_markupFree _ "Notification" ht (by decide))
  have hbody := run_text 0 false _ (orElse_markupFree _ "" hb (by decide))
  have h2 : Reader.run ⟨.data, 0, false⟩ (toastPiece 2).data = ⟨.data, 0, false⟩ := by decide
  have h3 : Reader.run ⟨.data, 0, false⟩ (toastPiece 3).data = ⟨.data, 0, false⟩ := by decide
  have h4 : Reader.run ⟨.data, 0, false⟩ (toastPiece 4).data = ⟨.data, 0, false⟩ := by decide
  have himage : Reader.run ⟨.data, 0, false⟩
      (toastImage (payload.notification.bind (fun n => n.image))).data
      = ⟨.data, 0, false⟩ := by
    generalize payload.notification.bind (fun n => n.image) = image at hi
    cases image with
    | none => rfl
    | some src =>
      simp only [toastImage]
      split_ifs
      · have hsrc : '"' ∉ src.data := by simpa [quoteFree] using hi
        have hopen : Reader.run ⟨.data, 0, false⟩ "<img src=\"".data
            = ⟨.attributeValueDouble ⟨false, "img".data, []⟩ "src".data [], 0, false⟩ := by
          decide
        have hclose : ∀ value : List Char,
            Reader.run
              ⟨.attributeValueDouble ⟨false, "img".data, []⟩ "src".data value, 0, false⟩
              "\" class=\"img-fluid mb-2 rounded\" alt=\"Notification image\">".data
            = ⟨.data, 0, false⟩ := by
          intro value
          rfl
        simp only [String.data_append, run_append, hopen, run_double _ _ _ _ _ _ hsrc, hclose]
      · rfl
  have hrun : Reader.start.run (toastHTML payload).data
      = (Reader.run ⟨.data, 0, false⟩ (toastAction payload).data).run (toastPiece 5).data := by
    rw [hpieces]
    simp only [String.data_append, run_append, hicon, htitle, h2, himage, h3, hbody, h4]
  unfold entriesLinks
  rw [hrun]
  unfold toastAction
  split_ifs <;> decide

set_option maxRecDepth 1000000 in
/-- C4 (amended) at a plain payload that asks for review. -/
theorem toast_links_of_plain_witness : entriesLinks (toastHTML reviewPush) = some 1 :=
  (toast_links_of_plain reviewPush (by decide)).trans (by decide)

/-! ### Token registration -/

/-- Whatever the outcome of the request, `registerToken` performs the request
and then exactly one console call, and lets no exception escape. -/
theorem registerToken_run (env : Env) (token : String) (res : FetchResult) :
    ∃ level text args, registerToken env token res
      = ⟨[Effect.fetch (registerRequest env token), Effect.console level text args], none⟩ := by
  unfold registerToken
  cases hr : registerTokenResume res with
  | error e => exact ⟨_, _, _, rfl⟩
  | ok effs =>
    have : ∃ level text args, effs = [Effect.console level text args] := by
      unfold registerTokenResume at hr
      cases res with
      | networkError => simp [FetchResult.await, bind, Except.bind] at hr
      | invalidJson => simp [FetchResult.await, bind, Except.bind] at hr
      | json data =>
        simp only [FetchResult.await, bind, Except.bind] at hr
        cases hs : data.get "success" with
        | error e => simp [hs] at hr
        | ok success =>
          simp only [hs] at hr
          by_cases ht : success.truthy = true
          · simp only [ht, if_true] at hr
            cases hd : data.get "device_id" with
            | error e => simp [hd] at hr
            | ok d =>
              simp only [hd, pure, Except.pure, Except.ok.injEq] at hr
              exact ⟨_, _, _, hr.symm⟩
          · have hf : success.truthy = false := by simpa using ht
            simp only [hf, Bool.false_eq_true, if_false] at hr
            cases hm : data.get "message" with
            | error e => simp [hm] at hr
            | ok m =>
              simp only [hm, pure, Except.pure, Except.ok.injEq] at hr
              exact ⟨_, _, _, hr.symm⟩
    obtain ⟨level, text, args, rfl⟩ := this
    exact ⟨_, _, _, rfl⟩

/-- C5: for every token string (empty or not), user agent and outcome of the
request, one call of `registerToken(token)` issues exactly one request: a POST
to /notifications/register-device with the JSON content type, whose body is
the object with `token` the given token, `device_type` "web" and `device_name`
the user agent string. -/
theorem registerToken_one_post (env : Env) (token : String) (res : FetchResult) :
    requests (registerToken env token res).effects
      = [{ method := "POST"
           url := "/notifications/register-device"
           headers := [("Content-Type", "application/json")]
           body := [("token", token), ("device_type", "web"),
                    ("device_name", env.userAgent)] }] := by
  obtain ⟨level, text, args, h⟩ := registerToken_run env token res
  rw [h]
  simp [requests, registerRequest]

/-- C6: for every token and every outcome of the registration request,
`registerToken` lets no exception escape, issues one request and no second
one, and performs nothing the user can perceive.  After a network error and
after a body that is not JSON it logs the exception; after a response whose
`success` is false it logs the response message. -/
theorem registerToken_fails_silently (env : Env) (token : String) (res : FetchResult)
    (rest : List (String × JField)) :
    (registerToken env token res).thrown = none
      ∧ (requests (registerToken env token res).effects).length = 1
      ∧ (registerToken env token res).effects.filter Effect.userVisible = []
      ∧ registerToken env token .networkError
          = ⟨[Effect.fetch (registerRequest env token),
              Effect.console .error "Error registering token:" [.exn .networkError]], none⟩
      ∧ registerToken env token .invalidJson
          = ⟨[Effect.fetch (registerRequest env token),
              Effect.console .error "Error registering token:" [.exn .syntaxError]], none⟩
      ∧ registerToken env token
            (.json (.object (("success", .prim (.bool false)) :: rest)))
          = ⟨[Effect.fetch (registerRequest env token),
              Effect.console .error "Token registration failed:"
                [.field ((rest.lookup "message").getD (.prim .undefined))]], none⟩ := by
  obtain ⟨level, text, args, h⟩ := registerToken_run env token res
  refine ⟨?_, ?_, ?_, rfl, rfl, ?_⟩
  · rw [h]
  · rw [h]; simp [requests]
  · rw [h]; simp [Effect.userVisible]
  · have hne : ("message" == "success") = false := by decide
    simp [registerToken, registerTokenResume, FetchResult.await, JBody.get, bind, Except.bind,
      pure, Except.pure, List.lookup, JField.truthy, JPrim.truthy, Run.catch, hne]

/-! ### Alert banners -/

/-- C7: for every alert and browser state, `showAlertNotification` appends
exactly one banner and starts exactly one timer, which removes that banner
after 10000 ms; it raises at most one system notification, namely one tagged
"alert-" followed by the alert id when notifications are supported and the
permission is "granted", and none in any other permission state.  For a string
id the tag ends in that string; for an integer id below 2^53 in magnitude it
ends in its decimal digits, and for a larger number in the platform's
rendering of it. -/
theorem showAlertNotification_effects (env : Env) (alert : Alert) :
    appended (showAlertNotification env alert) = [alertBanner env alert]
      ∧ timeouts (showAlertNotification env alert)
          = [(.removeElement (alertBanner env alert), 10000)]
      ∧ (notificationTags (showAlertNotification env alert)).length ≤ 1
      ∧ notificationTags (showAlertNotification env alert)
          = (if env.notificationSupported = true ∧ env.permission = "granted"
             then ["alert-" ++ alert.id.toStr env.printNumber] else [])
      ∧ (∀ s : String, notificationTags (showAlertNotification env { alert with id := .str s })
          = (if env.notificationSupported = true ∧ env.permission = "granted"
             then ["alert-" ++ s] else []))
      ∧ (∀ n : Int, notificationTags (showAlertNotification env { alert with id := .num n })
          = (if env.notificationSupported = true ∧ env.permission = "granted"
             then ["alert-" ++ (if n.natAbs < 9007199254740992 then toString n
                                else env.printNumber n)]
             else [])) := by
  by_cases hs : env.notificationSupported = true <;>
    by_cases hp : env.permission = "granted" <;>
    simp [showAlertNotification, appended, timeouts, notificationTags, hs, hp, JPrim.toStr]

/-! ### Permission flow -/

/-- The effects of `initializeMessaging` start with the call of
`firebase.messaging()` and contain nothing the user can perceive. -/
theorem initializeMessaging_effects (env : Env) (tok : TokenResult) (res : FetchResult) :
    (∃ effs, (initializeMessaging env tok res).effects = Effect.firebaseMessaging :: effs)
      ∧ (initializeMessaging env tok res).effects.filter Effect.userVisible = []
      ∧ (initializeMessaging env tok res).thrown = none := by
  cases tok with
  | messagingThrows =>
    exact ⟨⟨_, rfl⟩, by simp [initializeMessaging, Run.catch, Effect.userVisible], rfl⟩
  | rejected =>
    exact ⟨⟨_, rfl⟩, by simp [initializeMessaging, Run.catch, Effect.userVisible], rfl⟩
  | resolved token =>
    cases token with
    | none =>
      exact ⟨⟨_, rfl⟩, by simp [initializeMessaging, Run.catch, Effect.userVisible], rfl⟩
    | some t =>
      obtain ⟨level, text, args, h⟩ := registerToken_run env t res
      by_cases ht : t = ""
      · subst ht
        exact ⟨⟨_, rfl⟩, by simp [initializeMessaging, Run.catch, Effect.userVisible], rfl⟩
      · have hne : (t != "") = true := by simpa using ht
        refine ⟨⟨[Effect.onMessage, Effect.getToken VAPID_KEY,
          Effect.fetch (registerRequest env t), Effect.console level text args], ?_⟩, ?_, ?_⟩
        · simp [initializeMessaging, hne, Run.catch, h]
        · simp [initializeMessaging, hne, Run.catch, h, Effect.userVisible]
        · simp [initializeMessaging, hne, Run.catch]

/-- The requests issued by `initializeMessaging`: one registration when the
token promise resolves with a non-empty token, none in every other case. -/
theorem initializeMessaging_requests (env : Env) (tok : TokenResult) (res : FetchResult) :
    requests (initializeMessaging env tok res).effects
      = (match tok with
         | .resolved (some t) => if t = "" then [] else [registerRequest env t]
         | _ => []) := by
  cases tok with
  | messagingThrows => simp [initializeMessaging, Run.catch, requests]
  | rejected => simp [initializeMessaging, Run.catch, requests]
  | resolved token =>
    cases token with
    | none => simp [initializeMessaging, Run.catch, requests]
    | some t =>
      obtain ⟨level, text, args, h⟩ := registerToken_run env t res
      by_cases ht : t = ""
      · subst ht
        simp [initializeMessaging, Run.catch, requests]
      · have hne : (t != "") = true := by simpa using ht
        simp [initializeMessaging, hne, Run.catch, h, requests, ht]

/-- C8: with the push SDK loaded and `Notification` available, the load
handler of notifications.js acts by the permission alone: "granted" runs
`initializeMessaging` (which begins by calling `firebase.messaging()`) and
shows nothing; "denied" does nothing at all; any other value shows the Enable
banner with its click listener and makes no call into the messaging SDK. -/
theorem load_by_permission (env : Env) (tok : TokenResult) (res : FetchResult)
    (hf : env.firebaseLoaded = true) (hn : env.notificationSupported = true) :
    (env.permission = "granted" →
        (onDOMContentLoaded env tok res).effects = (initializeMessaging env tok res).effects
        ∧ (∃ effs, (onDOMContentLoaded env tok res).effects
              = Effect.firebaseMessaging :: effs)
        ∧ (onDOMContentLoaded env tok res).effects.filter Effect.userVisible = [])
      ∧ (env.permission = "denied" → onDOMContentLoaded env tok res = ⟨[], none⟩)
      ∧ (env.permission ≠ "granted" → env.permission ≠ "denied" →
          onDOMContentLoaded env tok res
            = ⟨[Effect.appendChild permissionBanner,
                Effect.addClickListener "enable-notifs-btn"], none⟩) := by
  refine ⟨?_, ?_, ?_⟩
  · intro hp
    have he : (onDOMContentLoaded env tok res).effects
        = (initializeMessaging env tok res).effects := by
      simp [onDOMContentLoaded, hf, hn, hp]
    rw [he]
    exact ⟨rfl, (initializeMessaging_effects env tok res).1,
      (initializeMessaging_effects env tok res).2.1⟩
  · intro hp
    simp [onDOMContentLoaded, hf, hn, hp]
  · intro hg hd
    simp [onDOMContentLoaded, hf, hn, hg, hd, showPermissionRequest]

/-- C8 in the three permission states, for a browser with the SDK loaded. -/
theorem load_by_permission_witness :
    (onDOMContentLoaded sampleEnv (.resolved (some "tok-1")) .networkError).effects
        = (initializeMessaging sampleEnv (.resolved (some "tok-1")) .networkError).effects
      ∧ onDOMContentLoaded undecidedEnv (.resolved (some "tok-1")) .networkError
        = ⟨[Effect.appendChild permissionBanner,
            Effect.addClickListener "enable-notifs-btn"], none⟩ :=
  ⟨((load_by_permission sampleEnv (.resolved (some "tok-1")) .networkError rfl rfl).1 rfl).1,
   (load_by_permission undecidedEnv (.resolved (some "tok-1")) .networkError rfl rfl).2.2
     (by decide) (by decide)⟩

theorem requests_append (a b : List Effect) : requests (a ++ b) = requests a ++ requests b := by
  simp [requests, List.filterMap_append]

/-- An effect list without perceivable effects does not contain the
permission prompt. -/
theorem no_prompt_of_silent (effs : List Effect) (h : effs.filter Effect.userVisible = []) :
    Effect.requestPermission ∉ effs := by
  intro hmem
  have : Effect.requestPermission ∈ effs.filter Effect.userVisible :=
    List.mem_filter.mpr ⟨hmem, rfl⟩
  rw [h] at this
  exact List.not_mem_nil _ this

/-- C9: start in permission state "default" with the push SDK loaded.  Loading
the page appends the Enable banner and attaches the click listener, which
makes the button available.  When the user then clicks Enable and the prompt
resolves to "granted", the listener performs, in this order: the permission
prompt, `firebase.messaging()`, the registration of the message handler,
`getToken`, and then, when the push service returns a non-empty token, one
POST to /notifications/register-device whose body carries that token (followed
by one console call), or, when it returns no token or an empty one, a warning
and no request; the success toast and the removal of the banner follow.  The
requests issued are exactly that one POST, or none, whatever the outcome of
the registration request. -/
theorem enable_click_registers (env : Env) (tok0 : TokenResult) (res0 res : FetchResult)
    (token : Option String)
    (hf : env.firebaseLoaded = true) (hn : env.notificationSupported = true)
    (hp : env.permission = "default") :
    (Page.initial.load env tok0 res0).1.enableButton = true
      ∧ (Page.initial.load env tok0 res0).2.effects
          = [Effect.appendChild permissionBanner, Effect.addClickListener "enable-notifs-btn"]
      ∧ Effect.requestPermission ∈
          ((Page.initial.load env tok0 res0).1.clickEnable env (.resolved "granted")
            (.resolved token) res).2.effects
      ∧ Effect.firebaseMessaging ∈
          ((Page.initial.load env tok0 res0).1.clickEnable env (.resolved "granted")
            (.resolved token) res).2.effects
      ∧ Effect.getToken VAPID_KEY ∈
          ((Page.initial.load env tok0 res0).1.clickEnable env (.resolved "granted")
            (.resolved token) res).2.effects
      ∧ requests ((Page.initial.load env tok0 res0).1.clickEnable env (.resolved "granted")
            (.resolved token) res).2.effects
          = (match token with
             | some t =>
               if t = "" then []
               else [{ method := "POST", url := "/notifications/register-device",
                       headers := [("Content-Type", "application/json")],
                       body := [("token", t), ("device_type", "web"),
                                ("device_name", env.userAgent)] }]
             | none => [])
      ∧ (∀ t, token = some t → t ≠ "" → ∃ level text args,
          ((Page.initial.load env tok0 res0).1.clickEnable env (.resolved "granted")
            (.resolved token) res).2.effects
            = [Effect.requestPermission, Effect.firebaseMessaging, Effect.onMessage,
               Effect.getToken "YOUR_VAPID_PUBLIC_KEY",
               Effect.fetch
                { method := "POST", url := "/notifications/register-device",
                       headers := [("Content-Type", "application/json")],
                       body := [("token", t), ("device_type", "web"),
                                ("device_name", env.userAgent)] },
               Effect.console level text args,
               Effect.appendChild (statusToast "success" "Notifications enabled!"),
               Effect.setTimeout
                (.removeElement (statusToast "success" "Notifications enabled!")) 4000,
               Effect.removeElement permissionBanner])
      ∧ (token = none ∨ token = some "" →
          ((Page.initial.load env tok0 res0).1.clickEnable env (.resolved "granted")
            (.resolved token) res).2.effects
            = [Effect.requestPermission, Effect.firebaseMessaging, Effect.onMessage,
               Effect.getToken "YOUR_VAPID_PUBLIC_KEY",
               Effect.console .warn
                "No registration token available. Request permission to generate one." [],
               Effect.appendChild (statusToast "success" "Notifications enabled!"),
               Effect.setTimeout
                (.removeElement (statusToast "success" "Notifications enabled!")) 4000,
               Effect.removeElement permissionBanner]) := by
  have hload : onDOMContentLoaded env tok0 res0 = ⟨showPermissionRequest, none⟩ := by
    simp [onDOMContentLoaded, hf, hn, hp]
  have hbtn : (Page.initial.load env tok0 res0).1.enableButton = true := by
    simp only [Page.load, hload]
    decide
  have hclick : ((Page.initial.load env tok0 res0).1.clickEnable env (.resolved "granted")
            (.resolved token) res).2.effects
      = [Effect.requestPermission] ++ (initializeMessaging env (.resolved token) res).effects
        ++ showToast "success" "Notifications enabled!"
        ++ [Effect.removeElement permissionBanner] := by
    simp [Page.clickEnable, hbtn, onEnableClick, requestPermission, Run.catch]
  have hinit : ∃ tail, (initializeMessaging env (.resolved token) res).effects
      = Effect.firebaseMessaging :: Effect.onMessage :: Effect.getToken VAPID_KEY :: tail := by
    cases token with
    | none => exact ⟨_, rfl⟩
    | some t =>
      by_cases ht : t = ""
      · subst ht
        exact ⟨_, rfl⟩
      · have hne : (t != "") = true := by simpa using ht
        exact ⟨(registerToken env t res).effects, by simp [initializeMessaging, hne, Run.catch]⟩
  refine ⟨hbtn, ?_, ?_, ?_, ?_, ?_, ?_, ?_⟩
  · simp [Page.load, hload, showPermissionRequest]
  · rw [hclick]; simp
  · obtain ⟨tail, ht⟩ := hinit
    rw [hclick, ht]; simp
  · obtain ⟨tail, ht⟩ := hinit
    rw [hclick, ht]; simp
  · rw [hclick]
    cases token with
    | none => simp [initializeMessaging, Run.catch, requests, showToast]
    | some t =>
      obtain ⟨level, text, args, h⟩ := registerToken_run env t res
      by_cases ht : t = ""
      · subst ht
        simp [initializeMessaging, Run.catch, requests, showToast]
      · have hne : (t != "") = true := by simpa using ht
        simp [initializeMessaging, hne, Run.catch, h, requests, showToast, ht, registerRequest]
  · intro t htok ht
    subst htok
    obtain ⟨level, text, args, h⟩ := registerToken_run env t res
    have hne : (t != "") = true := by simpa using ht
    refine ⟨level, text, args, ?_⟩
    rw [hclick]
    simp [initializeMessaging, hne, Run.catch, h, showToast, registerRequest, VAPID_KEY]
  · intro htok
    rw [hclick]
    rcases htok with htok | htok <;> subst htok <;>
      simp [initializeMessaging, Run.catch, showToast, VAPID_KEY]

/-- C9 at the token "tok-1", with a registration request that fails. -/
theorem enable_click_registers_witness :
    requests ((Page.initial.load undecidedEnv .rejected .networkError).1.clickEnable
        undecidedEnv (.resolved "granted") (.resolved (some "tok-1")) .networkError).2.effects
      = [{ method := "POST"
           url := "/notifications/register-device"
           headers := [("Content-Type", "application/json")]
           body := [("token", "tok-1"), ("device_type", "web"),
                    ("device_name", "Mozilla/5.0")] }] :=
  (enable_click_registers undecidedEnv .rejected .networkError .networkError (some "tok-1")
    rfl rfl rfl).2.2.2.2.2.1

/-- C10 (counterexample): with the permission in state "default", loading
realtime.js alone, without any click, invokes the permission prompt as its
first effect. -/
theorem realtime_prompts_on_load :
    (realtimeLoad undecidedEnv .networkError none).run.effects.head?
      = some Effect.requestPermission := by
  decide

/-- The effects of `updateUnreadCount` contain nothing the user can perceive
as an effect (the badge is tracked separately). -/
theorem updateUnreadCount_silent (res : FetchResult) (badge : Option Badge) :
    (updateUnreadCount res badge).run.effects.filter Effect.userVisible = [] := by
  unfold updateUnreadCount
  cases updateUnreadCountTry res badge with
  | ok b => simp [Effect.userVisible]
  | error e => simp [Run.catch, Effect.userVisible]

/-- C10 (amended): notifications.js never invokes the permission prompt when
the page loads, in any permission state; it invokes it from the click on the
Enable button, which exists only after the banner was shown.  realtime.js
invokes the prompt while loading exactly when notifications are supported and
the permission is "default". -/
theorem prompt_sources (env : Env) (page : Page) (prompt : PromptResult) (tok : TokenResult)
    (res : FetchResult) (badge : Option Badge) :
    Effect.requestPermission ∉ (onDOMContentLoaded env tok res).effects
      ∧ (Effect.requestPermission ∈ (page.clickEnable env prompt tok res).2.effects
          ↔ page.enableButton = true)
      ∧ (Effect.requestPermission ∈ (realtimeLoad env res badge).run.effects
          ↔ (env.notificationSupported = true ∧ env.permission = "default")) := by
  refine ⟨?_, ?_, ?_⟩
  · unfold onDOMContentLoaded
    split_ifs
    · simp
    · simp
    · exact no_prompt_of_silent _ (initializeMessaging_effects env tok res).2.1
    · simp [showPermissionRequest]
    · simp
  · by_cases hb : page.enableButton = true
    · have : ∃ tail, (requestPermission env prompt tok res).effects
          = Effect.requestPermission :: tail := by
        cases prompt with
        | rejected => exact ⟨_, rfl⟩
        | resolved p =>
          by_cases hg : p = "granted"
          · exact ⟨_, by simp [requestPermission, hg, Run.catch]; rfl⟩
          · exact ⟨_, by simp [requestPermission, hg, Run.catch]; rfl⟩
      obtain ⟨tail, ht⟩ := this
      simp [Page.clickEnable, hb, onEnableClick, ht]
    · simp [Page.clickEnable, hb]
  · have hu := no_prompt_of_silent _ (updateUnreadCount_silent res badge)
    by_cases hc : env.notificationSupported = true ∧ env.permission = "default"
    · simp [realtimeLoad, hc.1, hc.2, hc]
    · have hc2 : (env.notificationSupported && env.permission == "default") = false := by
        by_cases h1 : env.notificationSupported = true
        · have h2 : env.permission ≠ "default" := fun h => hc ⟨h1, h⟩
          simp [h1, h2]
        · simp [h1]
      simp [realtimeLoad, hc2, hc, hu]

/-! ### Unread count refresh -/

/-- The requests issued by one call of `updateUnreadCount`: the single GET of
/alerts/unread, whatever the outcome. -/
theorem updateUnreadCount_requests (res : FetchResult) (badge : Option Badge) :
    requests (updateUnreadCount res badge).run.effects = [unreadRequest]
      ∧ intervals (updateUnreadCount res badge).run.effects = []
      ∧ (updateUnreadCount res badge).run.thrown = none := by
  unfold updateUnreadCount
  cases updateUnreadCountTry res badge with
  | ok b => simp [requests, intervals]
  | error e => simp [Run.catch, requests, intervals]

/-- C11: for every `new_alert` event the handler logs, renders the alert and
then runs `updateUnreadCount` once: its effects are those three parts in that
order, its requests are exactly one GET of /alerts/unread, and the badge it
leaves is the one that refresh produces from the fetched response, with no
counting of its own.  Loading the script runs the refresh once (one GET) and
starts exactly one repeating timer, for `updateUnreadCount` every 30000 ms. -/
theorem new_alert_refreshes_once (env : Env) (data : Alert) (res : FetchResult)
    (badge : Option Badge) :
    (onNewAlert env data res badge).run.effects
        = [Effect.console .log "New alert received:" []] ++ showAlertNotification env data
          ++ (updateUnreadCount res badge).run.effects
      ∧ requests (onNewAlert env data res badge).run.effects
          = [{ method := "GET", url := "/alerts/unread", headers := [], body := [] }]
      ∧ (onNewAlert env data res badge).badge = (updateUnreadCount res badge).badge
      ∧ requests (realtimeLoad env res badge).run.effects
          = [{ method := "GET", url := "/alerts/unread", headers := [], body := [] }]
      ∧ intervals (realtimeLoad env res badge).run.effects = [(.updateUnreadCount, 30000)]
      ∧ (realtimeLoad env res badge).badge = (updateUnreadCount res badge).badge := by
  obtain ⟨hr, hi, _⟩ := updateUnreadCount_requests res badge
  have hshow : requests (showAlertNotification env data) = [] := by
    by_cases hs : env.notificationSupported = true <;>
      by_cases hp : env.permission = "granted" <;>
      simp [showAlertNotification, requests, hs, hp]
  refine ⟨rfl, ?_, rfl, ?_, ?_, rfl⟩
  · simp only [onNewAlert, requests_append, hr, hshow]
    simp [requests, unreadRequest]
  · simp only [realtimeLoad, requests_append, hr]
    by_cases hc : (env.notificationSupported && env.permission == "default") = true
    · simp [hc, requests, unreadRequest]
    · simp [hc, requests, unreadRequest]
  · simp only [realtimeLoad, intervals, List.filterMap_append]
    have hi2 : List.filterMap (fun e => match e with
        | Effect.setInterval action delay => some (action, delay)
        | _ => none) (updateUnreadCount res badge).run.effects = [] := hi
    rw [hi2]
    by_cases hc : (env.notificationSupported && env.permission == "default") = true
    · simp [hc]
    · simp [hc]

/-- C14 (counterexample): the same successful response with no alerts leaves
two badges that showed different counts with different texts, neither of them
the count of the response. -/
theorem empty_response_keeps_text :
    (updateUnreadCount (unreadBody []) (some ⟨"3", "inline"⟩)).badge = some ⟨"3", "none"⟩
      ∧ (updateUnreadCount (unreadBody []) (some ⟨"5", "inline"⟩)).badge
          = some ⟨"5", "none"⟩ := by
  decide

/-- C14 (amended): after a response whose `success` is truthy and whose
`alerts` is an array of N alerts, the visibility of an existing badge is a
function of the response alone ("inline" when N > 0, "none" when N = 0); its
text is N when N > 0 and is left as it was when N = 0. -/
theorem badge_after_success (fields : List (String × JField)) (items : List Alert) (b : Badge)
    (hs : ((fields.lookup "success").getD (.prim .undefined)).truthy = true)
    (ha : fields.lookup "alerts" = some (.array items)) :
    (updateUnreadCount (.json (.object fields)) (some b)).badge
      = some { textContent := if 0 < items.length then toString items.length
                              else b.textContent
               display := if 0 < items.length then "inline" else "none" } := by
  by_cases hpos : 0 < items.length
  · simp [updateUnreadCount, updateUnreadCountTry, FetchResult.await, JBody.get, hs, ha,
      JField.length, hpos, bind, Except.bind, pure, Except.pure]
  · have h0 : items.length = 0 := by omega
    simp [updateUnreadCount, updateUnreadCountTry, FetchResult.await, JBody.get, hs, ha,
      JField.length, h0, bind, Except.bind, pure, Except.pure]

/-- C14 (amended) at two badges and a response with two alerts: both end in
the same state. -/
theorem badge_after_success_witness :
    (updateUnreadCount (unreadBody [sampleAlert, sampleAlert]) (some ⟨"3", "inline"⟩)).badge
        = some ⟨"2", "inline"⟩
      ∧ (updateUnreadCount (unreadBody [sampleAlert, sampleAlert]) (some ⟨"9", "none"⟩)).badge
        = some ⟨"2", "inline"⟩ :=
  ⟨(badge_after_success [("success", .prim (.bool true)),
        ("alerts", .array [sampleAlert, sampleAlert])] [sampleAlert, sampleAlert]
        ⟨"3", "inline"⟩ (by decide) (by decide)).trans (by decide),
   (badge_after_success [("success", .prim (.bool true)),
        ("alerts", .array [sampleAlert, sampleAlert])] [sampleAlert, sampleAlert]
        ⟨"9", "none"⟩ (by decide) (by decide)).trans (by decide)⟩

/-- C15 (counterexample): a response that claims success and carries the
number 5 instead of an array of alerts does not leave a visible badge as it
was: reading `length` of the number gives `undefined`, the comparison with 0
fails, and the badge is hidden. -/
theorem count_response_hides_badge :
    (updateUnreadCount countBody (some ⟨"3", "inline"⟩)).badge = some ⟨"3", "none"⟩
      ∧ (updateUnreadCount countBody (some ⟨"3", "inline"⟩)).run.thrown = none := by
  decide

/-- C15 (amended): `updateUnreadCount` never lets an exception escape, with
or without a badge element.  It leaves the badge exactly as it was when the
request fails, when the body is not valid JSON, when reading `success` from
the parsed body throws or gives a falsy value, and when the body claims
success but its `alerts` property is missing or null.  Without a badge element
there is none afterwards either.  When the body claims success and `alerts` is
a number or a boolean the badge is hidden with its text kept; when it is a
string the badge is treated as for an array of that length: a non-empty string
shows its length, the empty string hides the badge. -/
theorem updateUnreadCount_failures (res : FetchResult) (badge : Option Badge) (data : JBody)
    (fields : List (String × JField)) :
    (updateUnreadCount res badge).run.thrown = none
      ∧ (updateUnreadCount .networkError badge).badge = badge
      ∧ (updateUnreadCount .invalidJson badge).badge = badge
      ∧ ((∀ v, data.get "success" = .ok v → v.truthy = false) →
          (updateUnreadCount (.json data) badge).badge = badge)
      ∧ (fields.lookup "alerts" = none ∨ fields.lookup "alerts" = some (.prim .undefined)
            ∨ fields.lookup "alerts" = some (.prim .null) →
          (updateUnreadCount (.json (.object fields)) badge).badge = badge)
      ∧ (updateUnreadCount res none).badge = none
      ∧ (∀ (b : Badge) (n : Int),
          ((fields.lookup "success").getD (.prim .undefined)).truthy = true →
          fields.lookup "alerts" = some (.prim (.num n)) →
          (updateUnreadCount (.json (.object fields)) (some b)).badge
            = some { textContent := b.textContent, display := "none" })
      ∧ (∀ (b : Badge) (v : Bool),
          ((fields.lookup "success").getD (.prim .undefined)).truthy = true →
          fields.lookup "alerts" = some (.prim (.bool v)) →
          (updateUnreadCount (.json (.object fields)) (some b)).badge
            = some { textContent := b.textContent, display := "none" })
      ∧ (∀ (b : Badge) (text : String),
          ((fields.lookup "success").getD (.prim .undefined)).truthy = true →
          fields.lookup "alerts" = some (.prim (.str text)) →
          (updateUnreadCount (.json (.object fields)) (some b)).badge
            = some { textContent := if 0 < utf16Length text then toString (utf16Length text)
                                    else b.textContent
                     display := if 0 < utf16Length text then "inline" else "none" }) := by
  refine ⟨(updateUnreadCount_requests res badge).2.2, rfl, rfl, ?_, ?_, ?_, ?_, ?_, ?_⟩
  rotate_left 3
  · intro b n hs ha
    simp [updateUnreadCount, updateUnreadCountTry, FetchResult.await, JBody.get, hs, ha,
      JField.length, bind, Except.bind, pure, Except.pure]
  · intro b v hs ha
    simp [updateUnreadCount, updateUnreadCountTry, FetchResult.await, JBody.get, hs, ha,
      JField.length, bind, Except.bind, pure, Except.pure]
  · intro b text hs ha
    by_cases hpos : 0 < utf16Length text
    · simp [updateUnreadCount, updateUnreadCountTry, FetchResult.await, JBody.get, hs, ha,
        JField.length, hpos, bind, Except.bind, pure, Except.pure]
    · have h0 : utf16Length text = 0 := by omega
      simp [updateUnreadCount, updateUnreadCountTry, FetchResult.await, JBody.get, hs, ha,
        JField.length, h0, bind, Except.bind, pure, Except.pure]
  · intro h
    cases hg : data.get "success" with
    | error e =>
      simp [updateUnreadCount, updateUnreadCountTry, FetchResult.await, hg, bind, Except.bind]
    | ok v =>
      have hv := h v hg
      simp [updateUnreadCount, updateUnreadCountTry, FetchResult.await, hg, hv, bind,
        Except.bind, pure, Except.pure]
  · intro h
    by_cases hs : ((fields.lookup "success").getD (.prim .undefined)).truthy = true
    · cases badge with
      | none =>
        simp [updateUnreadCount, updateUnreadCountTry, FetchResult.await, JBody.get, hs, bind,
          Except.bind, pure, Except.pure]
      | some b =>
        rcases h with h | h | h <;>
          simp [updateUnreadCount, updateUnreadCountTry, FetchResult.await, JBody.get, hs, h,
            JField.length, bind, Except.bind, pure, Except.pure]
    · have hf : ((fields.lookup "success").getD (.prim .undefined)).truthy = false := by
        simpa using hs
      simp [updateUnreadCount, updateUnreadCountTry, FetchResult.await, JBody.get, hf, bind,
        Except.bind, pure, Except.pure]
  · cases res with
    | networkError => rfl
    | invalidJson => rfl
    | json d =>
      cases hg : d.get "success" with
      | error e =>
        simp [updateUnreadCount, updateUnreadCountTry, FetchResult.await, hg, bind, Except.bind]
      | ok v =>
        by_cases hv : v.truthy = true
        · simp [updateUnreadCount, updateUnreadCountTry, FetchResult.await, hg, hv, bind,
            Except.bind, pure, Except.pure]
        · have hf : v.truthy = false := by simpa using hv
          simp [updateUnreadCount, updateUnreadCountTry, FetchResult.await, hg, hf, bind,
            Except.bind, pure, Except.pure]

/-- C15 (amended) at a visible badge: a response with `success: false` and a
response that claims success without an `alerts` property both leave it; a
response that claims success with `alerts: true` hides it, and one with
`alerts: "none"` shows the length 4. -/
theorem updateUnreadCount_failures_witness :
    (updateUnreadCount (.json (.object [("success", .prim (.bool false))]))
        (some ⟨"3", "inline"⟩)).badge = some ⟨"3", "inline"⟩
      ∧ (updateUnreadCount (.json (.object [("success", .prim (.bool true))]))
        (some ⟨"3", "inline"⟩)).badge = some ⟨"3", "inline"⟩
      ∧ (updateUnreadCount
          (.json (.object [("success", .prim (.bool true)), ("alerts", .prim (.bool true))]))
          (some ⟨"3", "inline"⟩)).badge = some ⟨"3", "none"⟩
      ∧ (updateUnreadCount
          (.json (.object [("success", .prim (.bool true)), ("alerts", .prim (.str "none"))]))
          (some ⟨"3", "none"⟩)).badge = some ⟨"4", "inline"⟩ :=
  ⟨(updateUnreadCount_failures .networkError (some ⟨"3", "inline"⟩)
      (.object [("success", .prim (.bool false))]) []).2.2.2.1
      (by
        intro v hv
        have : v = .prim (.bool false) := by
          simpa [JBody.get, List.lookup] using hv.symm
        rw [this]; rfl),
   (updateUnreadCount_failures .networkError (some ⟨"3", "inline"⟩) (.value (.prim .null))
      [("success", .prim (.bool true))]).2.2.2.2.1 (Or.inl (by decide)),
   (updateUnreadCount_failures .networkError none (.value (.prim .null))
      [("success", .prim (.bool true)), ("alerts", .prim (.bool true))]).2.2.2.2.2.2.2.1
      ⟨"3", "inline"⟩ true (by decide) (by decide),
   ((updateUnreadCount_failures .networkError none (.value (.prim .null))
      [("success", .prim (.bool true)), ("alerts", .prim (.str "none"))]).2.2.2.2.2.2.2.2
      ⟨"3", "none"⟩ "none" (by decide) (by decide)).trans (by decide)⟩

/-! ### Toast classification -/

/-- C12: for a payload whose `data.type` is "door_action",
`showForegroundNotification` appends one toast, and the icon element in its
markup carries the pair (bi-door-open, text-success) exactly when
`data.action` is the string "door_opened", and the pair (bi-door-closed,
text-danger) when the action is absent or any other string; two such payloads
with the same `action` get the same pair whatever their `is_known`. -/
theorem door_action_icon (payload other : Payload)
    (ht : payload.dataField "type" = some "door_action")
    (ho : other.dataField "type" = some "door_action")
    (ha : other.dataField "action" = payload.dataField "action") :
    ((iconClass payload = "bi-door-open" ∧ headerClass payload = "text-success")
        ↔ payload.dataField "action" = some "door_opened")
      ∧ (payload.dataField "action" ≠ some "door_opened" →
          iconClass payload = "bi-door-closed" ∧ headerClass payload = "text-danger")
      ∧ iconClass other = iconClass payload
      ∧ headerClass other = headerClass payload
      ∧ ((appended (showForegroundNotification payload)).map (fun el => el.innerHTML)
            = ["\n        <div class=\"toast-header\">\n            <i class=\"bi "
              ++ "bi-door-open" ++ " " ++ "text-success"
              ++ " me-2\"></i>\n            <strong class=\"me-auto\">"
              ++ orElse (payload.notification.bind (fun n => n.title)) "Notification"
              ++ "</strong>\n            <small class=\"text-muted\">Just now</small>\n            <button type=\"button\" class=\"btn-close\" data-bs-dismiss=\"toast\"></button>\n        </div>\n        <div class=\"toast-body\">\n            "
              ++ toastImage (payload.notification.bind (fun n => n.image))
              ++ "\n            <p class=\"mb-0\">"
              ++ orElse (payload.notification.bind (fun n => n.body)) ""
              ++ "</p>\n            "
              ++ toastAction payload
              ++ "\n        </div>\n    "]
          ↔ payload.dataField "action" = some "door_opened")
      ∧ (payload.dataField "action" ≠ some "door_opened" →
          (appended (showForegroundNotification payload)).map (fun el => el.innerHTML)
            = ["\n        <div class=\"toast-header\">\n            <i class=\"bi "
              ++ "bi-door-closed" ++ " " ++ "text-danger"
              ++ " me-2\"></i>\n            <strong class=\"me-auto\">"
              ++ orElse (payload.notification.bind (fun n => n.title)) "Notification"
              ++ "</strong>\n            <small class=\"text-muted\">Just now</small>\n            <button type=\"button\" class=\"btn-close\" data-bs-dismiss=\"toast\"></button>\n        </div>\n        <div class=\"toast-body\">\n            "
              ++ toastImage (payload.notification.bind (fun n => n.image))
              ++ "\n            <p class=\"mb-0\">"
              ++ orElse (payload.notification.bind (fun n => n.body)) ""
              ++ "</p>\n            "
              ++ toastAction payload
              ++ "\n        </div>\n    "])
      ∧ (payload.dataField "action" = some "door_opened" →
          (appended (showForegroundNotification other)).map (fun el => el.innerHTML)
            = ["\n        <div class=\"toast-header\">\n            <i class=\"bi "
              ++ "bi-door-open" ++ " " ++ "text-success"
              ++ " me-2\"></i>\n            <strong class=\"me-auto\">"
              ++ orElse (other.notification.bind (fun n => n.title)) "Notification"
              ++ "</strong>\n            <small class=\"text-muted\">Just now</small>\n            <button type=\"button\" class=\"btn-close\" data-bs-dismiss=\"toast\"></button>\n        </div>\n        <div class=\"toast-body\">\n            "
              ++ toastImage (other.notification.bind (fun n => n.image))
              ++ "\n            <p class=\"mb-0\">"
              ++ orElse (other.notification.bind (fun n => n.body)) ""
              ++ "</p>\n            "
              ++ toastAction other
              ++ "\n        </div>\n    "])
      ∧ (payload.dataField "action" ≠ some "door_opened" →
          (appended (showForegroundNotification other)).map (fun el => el.innerHTML)
            = ["\n        <div class=\"toast-header\">\n            <i class=\"bi "
              ++ "bi-door-closed" ++ " " ++ "text-danger"
              ++ " me-2\"></i>\n            <strong class=\"me-auto\">"
              ++ orElse (other.notification.bind (fun n => n.title)) "Notification"
              ++ "</strong>\n            <small class=\"text-muted\">Just now</small>\n            <button type=\"button\" class=\"btn-close\" data-bs-dismiss=\"toast\"></button>\n        </div>\n        <div class=\"toast-body\">\n            "
              ++ toastImage (other.notification.bind (fun n => n.image))
              ++ "\n            <p class=\"mb-0\">"
              ++ orElse (other.notification.bind (fun n => n.body)) ""
              ++ "</p>\n            "
              ++ toastAction other
              ++ "\n        </div>\n    "]) := by
  have hne : ("door_action" = "entry_alert") = False := by decide
  have hs : payload.dataField "action" = some "door_opened" →
      (appended (showForegroundNotification payload)).map (fun el => el.innerHTML)
          = ["\n        <div class=\"toast-header\">\n            <i class=\"bi "
              ++ "bi-door-open" ++ " " ++ "text-success"
              ++ " me-2\"></i>\n            <strong class=\"me-auto\">"
              ++ orElse (payload.notification.bind (fun n => n.title)) "Notification"
              ++ "</strong>\n            <small class=\"text-muted\">Just now</small>\n            <button type=\"button\" class=\"btn-close\" data-bs-dismiss=\"toast\"></button>\n        </div>\n        <div class=\"toast-body\">\n            "
              ++ toastImage (payload.notification.bind (fun n => n.image))
              ++ "\n            <p class=\"mb-0\">"
              ++ orElse (payload.notification.bind (fun n => n.body)) ""
              ++ "</p>\n            "
              ++ toastAction payload
              ++ "\n        </div>\n    "] := by
    intro hk
    simp [showForegroundNotification, appended, foregroundToast, toastHTML, iconClass,
      headerClass, ht, hk, hne]
  have hd : payload.dataField "action" ≠ some "door_opened" →
      (appended (showForegroundNotification payload)).map (fun el => el.innerHTML)
          = ["\n        <div class=\"toast-header\">\n            <i class=\"bi "
              ++ "bi-door-closed" ++ " " ++ "text-danger"
              ++ " me-2\"></i>\n            <strong class=\"me-auto\">"
              ++ orElse (payload.notification.bind (fun n => n.title)) "Notification"
              ++ "</strong>\n            <small class=\"text-muted\">Just now</small>\n            <button type=\"button\" class=\"btn-close\" data-bs-dismiss=\"toast\"></button>\n        </div>\n        <div class=\"toast-body\">\n            "
              ++ toastImage (payload.notification.bind (fun n => n.image))
              ++ "\n            <p class=\"mb-0\">"
              ++ orElse (payload.notification.bind (fun n => n.body)) ""
              ++ "</p>\n            "
              ++ toastAction payload
              ++ "\n        </div>\n    "] := by
    intro hk
    simp [showForegroundNotification, appended, foregroundToast, toastHTML, iconClass,
      headerClass, ht, hk, hne]
  refine ⟨?_, ?_, ?_, ?_, ⟨?_, hs⟩, hd, ?_, ?_⟩
  · by_cases hk : payload.dataField "action" = some "door_opened"
    · simp [iconClass, headerClass, ht, hk, hne]
    · simp [iconClass, headerClass, ht, hk, hne]
  · intro hk
    simp [iconClass, headerClass, ht, hk, hne]
  · simp [iconClass, ht, ho, ha, hne]
  · simp [headerClass, ht, ho, ha, hne]
  · intro h
    by_contra hk
    rw [hd hk] at h
    simp only [List.cons.injEq, and_true, String.append_assoc] at h
    exact door_icons_differ _ _ _ h.symm
  · intro hk
    simp [showForegroundNotification, appended, foregroundToast, toastHTML, iconClass,
      headerClass, ho, ha, hk, hne]
  · intro hk
    simp [showForegroundNotification, appended, foregroundToast, toastHTML, iconClass,
      headerClass, ho, ha, hk, hne]

set_option maxRecDepth 100000 in
/-- C12 at two door pushes: an opened door marked unknown, and another
action marked known. -/
theorem door_action_icon_witness :
    (iconClass (doorPush "door_opened" "False") = "bi-door-open"
        ∧ headerClass (doorPush "door_opened" "False") = "text-success")
      ∧ (iconClass (doorPush "door_locked" "True") = "bi-door-closed"
        ∧ headerClass (doorPush "door_locked" "True") = "text-danger")
      ∧ iconClass (doorPush "door_opened" "True") = iconClass (doorPush "door_opened" "False")
      ∧ (appended (showForegroundNotification (doorPush "door_locked" "True"))).map
            (fun el => el.innerHTML)
          = ["\n        <div class=\"toast-header\">\n            <i class=\"bi bi-door-closed text-danger me-2\"></i>\n            <strong class=\"me-auto\">Notification</strong>\n            <small class=\"text-muted\">Just now</small>\n            <button type=\"button\" class=\"btn-close\" data-bs-dismiss=\"toast\"></button>\n        </div>\n        <div class=\"toast-body\">\n            \n            <p class=\"mb-0\"></p>\n            \n        </div>\n    "] :=
  ⟨(door_action_icon (doorPush "door_opened" "False") (doorPush "door_opened" "True")
      (by decide) (by decide) (by decide)).1.mpr (by decide),
   (door_action_icon (doorPush "door_locked" "True") (doorPush "door_locked" "True")
      (by decide) (by decide) (by decide)).2.1 (by decide),
   (door_action_icon (doorPush "door_opened" "False") (doorPush "door_opened" "True")
      (by decide) (by decide) (by decide)).2.2.1,
   ((door_action_icon (doorPush "door_locked" "True") (doorPush "door_locked" "True")
      (by decide) (by decide) (by decide)).2.2.2.2.2.1 (by decide)).trans (by decide)⟩

/-- C13: for a payload whose `data.type` is neither "entry_alert" nor
"door_action" (also when `data` or `type` is missing), the toast gets the pair
(bi-info-circle, text-primary) whatever `is_known` and `action` are.  For a
payload without `notification` part the function still appends its toast and
starts its timer, and the markup carries the title "Notification" and an empty
body paragraph. -/
theorem other_type_icon (payload : Payload) (data : Option (List (String × String)))
    (h1 : payload.dataField "type" ≠ some "entry_alert")
    (h2 : payload.dataField "type" ≠ some "door_action") :
    iconClass payload = "bi-info-circle" ∧ headerClass payload = "text-primary"
      ∧ showForegroundNotification ⟨none, data⟩
          = [Effect.appendChild (foregroundToast ⟨none, data⟩),
             Effect.setTimeout (.removeElement (foregroundToast ⟨none, data⟩)) 60000]
      ∧ (foregroundToast ⟨none, data⟩).innerHTML
          = "\n        <div class=\"toast-header\">\n            <i class=\"bi "
            ++ iconClass ⟨none, data⟩ ++ " " ++ headerClass ⟨none, data⟩
            ++ " me-2\"></i>\n            <strong class=\"me-auto\">Notification</strong>\n            <small class=\"text-muted\">Just now</small>\n            <button type=\"button\" class=\"btn-close\" data-bs-dismiss=\"toast\"></button>\n        </div>\n        <div class=\"toast-body\">\n            \n            <p class=\"mb-0\"></p>\n            "
            ++ toastAction ⟨none, data⟩ ++ "\n        </div>\n    " := by
  refine ⟨by simp [iconClass, h1, h2], by simp [headerClass, h1, h2], rfl, ?_⟩
  simp [foregroundToast, toastHTML, orElse, toastImage, String.append_assoc]

/-- C13 at a payload without data and without notification part. -/
theorem other_type_icon_witness :
    iconClass ⟨none, none⟩ = "bi-info-circle" ∧ headerClass ⟨none, none⟩ = "text-primary" :=
  ⟨(other_type_icon ⟨none, none⟩ none (by decide) (by decide)).1,
   (other_type_icon ⟨none, none⟩ none (by decide) (by decide)).2.1⟩

/-! ## Properties of face-enrollment.js -/

theorem showEnrollResult_selectedFiles (type message : String) (page : FacePage) :
    (showEnrollResult type message page).selectedFiles = page.selectedFiles := by
  unfold showEnrollResult
  cases page.enrollResult <;> rfl

/-- With a name and at least 2 photos the listener issues its request first;
what follows are timers only, and `selectedFiles` is not touched. -/
theorem onSubmitEnroll_sent (errorMessage : JSError → String) (printNumber : Int → String)
    (form : EnrollForm)
    (res : FetchResult) (page : FacePage) (hn : jsTrim form.personName ≠ "")
    (hf : ¬ page.selectedFiles.length < 2) :
    ∃ timers, (onSubmitEnroll errorMessage printNumber form res page).effects
        = FaceEffect.fetch "POST" "/face/enroll"
            (enrollFormData (jsTrim form.personName) form page.selectedFiles) :: timers
      ∧ faceRequests timers = []
      ∧ (onSubmitEnroll errorMessage printNumber form res page).page.selectedFiles
          = page.selectedFiles := by
  cases res with
  | networkError =>
    exact ⟨[], by simp [onSubmitEnroll, hn, hf], rfl,
      by simp [onSubmitEnroll, hn, hf, enrollFailed, showEnrollResult_selectedFiles]⟩
  | invalidJson =>
    exact ⟨[], by simp [onSubmitEnroll, hn, hf], rfl,
      by simp [onSubmitEnroll, hn, hf, enrollFailed, showEnrollResult_selectedFiles]⟩
  | json data =>
    cases hs : data.get "success" with
    | error e =>
      exact ⟨[], by simp [onSubmitEnroll, hn, hf, hs], rfl,
        by simp [onSubmitEnroll, hn, hf, hs, enrollFailed, showEnrollResult_selectedFiles]⟩
    | ok success =>
      cases hm : data.get "message" with
      | error e =>
        exact ⟨[], by simp [onSubmitEnroll, hn, hf, hs, hm], rfl,
          by simp [onSubmitEnroll, hn, hf, hs, hm, enrollFailed,
            showEnrollResult_selectedFiles]⟩
      | ok message =>
        by_cases ht : success.truthy = true
        · exact ⟨[FaceEffect.setTimeout (.enrollSucceeded message) 500],
            by simp [onSubmitEnroll, hn, hf, hs, hm, ht], rfl,
            by simp [onSubmitEnroll, hn, hf, hs, hm, ht]⟩
        · exact ⟨[], by simp [onSubmitEnroll, hn, hf, hs, hm, ht], rfl,
            by simp [onSubmitEnroll, hn, hf, hs, hm, ht, showEnrollResult_selectedFiles]⟩

set_option maxRecDepth 100000 in
/-- C16: the submit listener issues a request exactly when the trimmed name is
non-empty and at least 2 photos are selected, and then it is one POST to
/face/enroll whose form data holds the trimmed name, the relation, the
resident flag and one `images` entry per selected file, in the order of
`selectedFiles`.  With an empty trimmed name it calls `showEnrollResult` with
"Please enter a name." and does nothing else (also when the photos are too
few); with a name but fewer than 2 photos it calls it with the photo message
and does nothing else.  In every case `selectedFiles` is left as it was.  When
the result box exists, the name error is what it shows. -/
theorem enroll_validation (errorMessage : JSError → String) (printNumber : Int → String)
    (form : EnrollForm)
    (res : FetchResult) (page : FacePage) :
    faceRequests (onSubmitEnroll errorMessage printNumber form res page).effects
        = (if jsTrim form.personName ≠ "" ∧ 2 ≤ page.selectedFiles.length then
            [("POST", "/face/enroll",
              [("person_name", FormValue.text (jsTrim form.personName)),
               ("relation", FormValue.text form.relation),
               ("is_resident", FormValue.text (if form.isResident then "true" else "false"))]
              ++ page.selectedFiles.map (fun file => ("images", FormValue.file file)))]
           else [])
      ∧ (jsTrim form.personName = "" →
          onSubmitEnroll errorMessage printNumber form res page
            = ⟨showEnrollResult "error" "Please enter a name." page, []⟩)
      ∧ (jsTrim form.personName ≠ "" → page.selectedFiles.length < 2 →
          onSubmitEnroll errorMessage printNumber form res page
            = ⟨showEnrollResult "error"
                "Please upload at least 2 photos with clear face visibility." page, []⟩)
      ∧ (onSubmitEnroll errorMessage printNumber form res page).page.selectedFiles = page.selectedFiles
      ∧ (jsTrim form.personName = "" → page.enrollResult.isSome = true →
          (onSubmitEnroll errorMessage printNumber form res page).page.enrollResult
            = some ⟨"block", "\n        <div class=\"alert alert-danger mb-0\" style=\"border-radius: 12px;\">\n            <i class=\"bi bi-exclamation-circle\"></i> Please enter a name.\n        </div>\n    "⟩) := by
  by_cases hn : jsTrim form.personName = ""
  · refine ⟨?_, ?_, ?_, ?_, ?_⟩
    · simp [onSubmitEnroll, hn, faceRequests]
    · intro _; simp [onSubmitEnroll, hn]
    · intro h; exact absurd hn h
    · simp [onSubmitEnroll, hn, showEnrollResult_selectedFiles]
    · intro _ hbox
      cases hb : page.enrollResult with
      | none => simp [hb] at hbox
      | some box =>
        simp only [onSubmitEnroll, hn, if_true, showEnrollResult, hb]
        decide
  · by_cases hf : page.selectedFiles.length < 2
    · have hf2 : ¬ 2 ≤ page.selectedFiles.length := by omega
      refine ⟨?_, ?_, ?_, ?_, ?_⟩
      · simp [onSubmitEnroll, hn, hf, faceRequests]
      · intro h; exact absurd h hn
      · intro _ _; simp [onSubmitEnroll, hn, hf]
      · simp [onSubmitEnroll, hn, hf, showEnrollResult_selectedFiles]
      · intro h; exact absurd h hn
    · have hf2 : 2 ≤ page.selectedFiles.length := by omega
      obtain ⟨timers, hrun, htimers, hfiles⟩ :=
        onSubmitEnroll_sent errorMessage printNumber form res page hn hf
      refine ⟨?_, ?_, ?_, ?_, ?_⟩
      · rw [if_pos ⟨hn, hf2⟩, hrun]
        have hsplit : faceRequests (FaceEffect.fetch "POST" "/face/enroll"
            (enrollFormData (jsTrim form.personName) form page.selectedFiles) :: timers)
            = ("POST", "/face/enroll",
                enrollFormData (jsTrim form.personName) form page.selectedFiles)
              :: faceRequests timers := by
          simp [faceRequests]
        rw [hsplit, htimers]
        rfl
      · intro h; exact absurd h hn
      · intro _ h; exact absurd h hf
      · exact hfiles
      · intro h; exact absurd h hn

set_option maxRecDepth 100000 in
/-- C16 at a name of blanks only, and at a name with surrounding blanks, both
with two photos selected. -/
theorem enroll_validation_witness :
    onSubmitEnroll sampleErrorMessage samplePrintNumber ⟨"   ", "family", true⟩ .networkError enrollPage
        = ⟨showEnrollResult "error" "Please enter a name." enrollPage, []⟩
      ∧ faceRequests
          (onSubmitEnroll sampleErrorMessage samplePrintNumber ⟨"  Ada ", "family", true⟩ .networkError
            enrollPage).effects
        = [("POST", "/face/enroll",
            [("person_name", FormValue.text "Ada"), ("relation", FormValue.text "family"),
             ("is_resident", FormValue.text "true"),
             ("images", FormValue.file ⟨"a.jpg", "image/jpeg"⟩),
             ("images", FormValue.file ⟨"b.jpg", "image/jpeg"⟩)])] :=
  ⟨(enroll_validation sampleErrorMessage samplePrintNumber ⟨"   ", "family", true⟩ .networkError enrollPage).2.1
      (by decide),
   (enroll_validation sampleErrorMessage samplePrintNumber ⟨"  Ada ", "family", true⟩ .networkError
      enrollPage).1.trans (by decide)⟩

/-! ### Filtering the people grid -/

/-- The pattern starts the text exactly when the text is the pattern followed
by something. -/
theorem isPrefixOf_iff_append (p t : List Char) :
    p.isPrefixOf t = true ↔ ∃ post, t = p ++ post := by
  induction p generalizing t with
  | nil => simp [List.isPrefixOf]
  | cons a p ih =>
    cases t with
    | nil => simp [List.isPrefixOf]
    | cons b t =>
      simp only [List.isPrefixOf, Bool.and_eq_true, beq_iff_eq, ih, List.cons_append,
        List.cons.injEq]
      constructor
      · rintro ⟨hab, post, ht⟩
        exact ⟨post, hab.symm, ht⟩
      · rintro ⟨post, hab, ht⟩
        exact ⟨hab.symm, post, ht⟩

/-- The pattern occurs in the text exactly when the text is something, the
pattern, and something. -/
theorem occurrences_pos_iff (p t : List Char) :
    0 < occurrences p t ↔ ∃ pre post, t = pre ++ p ++ post := by
  induction t with
  | nil =>
    simp only [occurrences]
    constructor
    · intro h
      by_cases hp : p.isPrefixOf [] = true
      · obtain ⟨post, hpost⟩ := (isPrefixOf_iff_append p []).mp hp
        exact ⟨[], post, by simpa using hpost⟩
      · simp [hp] at h
    · rintro ⟨pre, post, h⟩
      have hp : p = [] := by
        have := congrArg List.length h
        simp at this
        exact List.length_eq_zero.mp (by omega)
      subst hp
      simp [List.isPrefixOf]
  | cons c cs ih =>
    simp only [occurrences]
    constructor
    · intro h
      by_cases hp : p.isPrefixOf (c :: cs) = true
      · obtain ⟨post, hpost⟩ := (isPrefixOf_iff_append p (c :: cs)).mp hp
        exact ⟨[], post, by simpa using hpost⟩
      · have hpos : 0 < occurrences p cs := by
          simp only [hp] at h
          simpa using h
        obtain ⟨pre, post, hcs⟩ := ih.mp hpos
        exact ⟨c :: pre, post, by simp [hcs]⟩
    · rintro ⟨pre, post, h⟩
      cases pre with
      | nil =>
        have hp : p.isPrefixOf (c :: cs) = true :=
          (isPrefixOf_iff_append p (c :: cs)).mpr ⟨post, by simpa using h⟩
        simp [hp]
      | cons d pre =>
        have hcs : cs = pre ++ p ++ post := by
          simp only [List.cons_append, List.cons.injEq] at h
          exact h.2
        have := ih.mpr ⟨pre, post, hcs⟩
        omega

/-- The method `includes`: the text contains the other as a contiguous part. -/
theorem includes_iff (s sub : String) :
    includes s sub = true ↔ ∃ pre post, s.data = pre ++ sub.data ++ post := by
  simp only [includes, decide_eq_true_eq]
  exact occurrences_pos_iff sub.data s.data

theorem matchesFilter_iff (lower : String → String) (q r : String) (p : Person) :
    matchesFilter lower q r p = true
      ↔ (q = "" ∨ ∃ pre post, (lower p.name).data = pre ++ q.data ++ post)
        ∧ (r = "" ∨ p.relation = r) := by
  simp [matchesFilter, includes_iff]

theorem renderPeople_grid (lower : String → String) (persons : List Person) (page : FacePage)
    (hg : page.peopleGrid.isSome = true) :
    (renderPeople lower persons page).peopleGrid = some (persons.map (personCard lower)) := by
  unfold renderPeople
  cases hgrid : page.peopleGrid with
  | none => simp [hgrid] at hg
  | some cards =>
    by_cases hl : persons.length = 0
    · have : persons = [] := List.length_eq_zero.mp hl
      subst this
      simp
    · simp [hl]

theorem renderPeople_twice (lower : String → String) (first second : List Person)
    (page : FacePage) :
    renderPeople lower second (renderPeople lower first page)
      = renderPeople lower second page := by
  unfold renderPeople
  cases hgrid : page.peopleGrid with
  | none => simp [hgrid]
  | some cards =>
    cases he : page.emptyState <;>
      by_cases h1 : first.length = 0 <;> by_cases h2 : second.length = 0 <;>
      simp [h1, h2, he]

/-- C17: `filterPeopleDisplay(q, r)` calls `renderPeople` with the persons of
`peopleData`, in their order, that satisfy (q is empty or the lower-cased name
contains q) and (r is empty or the relation equals r); when the grid exists
its columns afterwards are exactly the cards of these persons.  The rendered
list is a sublist of `peopleData`; with q and r empty it is all of
`peopleData`; `peopleData` itself is left as it was, so a filter applied after
another one gives the same page as that filter applied directly. -/
theorem filter_renders_matching (lower : String → String) (q r q2 r2 : String)
    (page : FacePage) (p : Person) :
    filterPeopleDisplay lower q r page
        = renderPeople lower (page.peopleData.filter (matchesFilter lower q r)) page
      ∧ (p ∈ page.peopleData.filter (matchesFilter lower q r)
          ↔ p ∈ page.peopleData
            ∧ (q = "" ∨ ∃ pre post, (lower p.name).data = pre ++ q.data ++ post)
            ∧ (r = "" ∨ p.relation = r))
      ∧ (page.peopleData.filter (matchesFilter lower q r)).Sublist page.peopleData
      ∧ (page.peopleGrid.isSome = true →
          (filterPeopleDisplay lower q r page).peopleGrid
            = some ((page.peopleData.filter (matchesFilter lower q r)).map (personCard lower)))
      ∧ page.peopleData.filter (matchesFilter lower "" "") = page.peopleData
      ∧ (filterPeopleDisplay lower q r page).peopleData = page.peopleData
      ∧ filterPeopleDisplay lower q2 r2 (filterPeopleDisplay lower q r page)
          = filterPeopleDisplay lower q2 r2 page := by
  have hdata : ∀ persons, (renderPeople lower persons page).peopleData = page.peopleData := by
    intro persons
    unfold renderPeople
    cases page.peopleGrid with
    | none => rfl
    | some cards => by_cases hl : persons.length = 0 <;> simp [hl]
  refine ⟨rfl, ?_, List.filter_sublist _, ?_, ?_, hdata _, ?_⟩
  · rw [List.mem_filter, matchesFilter_iff]
  · intro hg
    exact renderPeople_grid lower _ page hg
  · apply List.filter_eq_self.mpr
    intro a _
    simp [matchesFilter]
  · unfold filterPeopleDisplay
    rw [hdata, renderPeople_twice]

set_option maxRecDepth 100000 in
/-- C17 on three persons: the query "ad" with relation "friend" shows the
third person only, and clearing both afterwards shows all three again. -/
theorem filter_renders_matching_witness :
    (filterPeopleDisplay asciiLower "ad" "friend" peoplePage).peopleGrid
        = some [personCard asciiLower ⟨3, "Adam West", "friend", false, none⟩]
      ∧ (filterPeopleDisplay asciiLower "" ""
          (filterPeopleDisplay asciiLower "ad" "friend" peoplePage)).peopleGrid
        = some (samplePeople.map (personCard asciiLower)) :=
  ⟨((filter_renders_matching asciiLower "ad" "friend" "" "" peoplePage
        ⟨1, "Ada Lovelace", "family", true, none⟩).2.2.2.1 (by decide)).trans (by decide),
   (congrArg FacePage.peopleGrid
      (filter_renders_matching asciiLower "ad" "friend" "" "" peoplePage
        ⟨1, "Ada Lovelace", "family", true, none⟩).2.2.2.2.2.2).trans (by decide)⟩

/-! ### Relative times -/

/-- C18: let the timestamp be a non-empty string that parses to the time t,
and let m be (now - t) / 60000 rounded down.  Then `formatTime` returns
"Just now" when m < 1, in particular whenever t lies in the future; m followed
by "m ago" when 1 ≤ m < 60; m / 60 rounded down followed by "h ago" when
60 ≤ m < 1440, and that hour count lies between 1 and 23; and the calendar
date of t otherwise.  Exactly one of the four ranges holds for m.  For a
missing or empty timestamp it returns "Never". -/
theorem formatTime_ranges (parseDate : String → Option Int) (localeDate : Option Int → String)
    (now t : Int) (s : String) (hs : s ≠ "") (hp : parseDate s = some t) :
    (60000 * ((now - t) / 60000) ≤ now - t ∧ now - t < 60000 * ((now - t) / 60000) + 60000)
      ∧ ((now - t) / 60000 < 1 →
          formatTime parseDate localeDate now (some s) = "Just now")
      ∧ (now < t → formatTime parseDate localeDate now (some s) = "Just now")
      ∧ (1 ≤ (now - t) / 60000 → (now - t) / 60000 < 60 →
          formatTime parseDate localeDate now (some s)
            = toString ((now - t) / 60000) ++ "m ago")
      ∧ (60 ≤ (now - t) / 60000 → (now - t) / 60000 < 1440 →
          formatTime parseDate localeDate now (some s)
              = toString ((now - t) / 60000 / 60) ++ "h ago"
            ∧ 1 ≤ (now - t) / 60000 / 60 ∧ (now - t) / 60000 / 60 ≤ 23)
      ∧ (1440 ≤ (now - t) / 60000 →
          formatTime parseDate localeDate now (some s) = localeDate (some t))
      ∧ (((now - t) / 60000 < 1
            ∧ ¬ (1 ≤ (now - t) / 60000 ∧ (now - t) / 60000 < 60)
            ∧ ¬ (60 ≤ (now - t) / 60000 ∧ (now - t) / 60000 < 1440)
            ∧ ¬ 1440 ≤ (now - t) / 60000)
          ∨ (¬ (now - t) / 60000 < 1
            ∧ (1 ≤ (now - t) / 60000 ∧ (now - t) / 60000 < 60)
            ∧ ¬ (60 ≤ (now - t) / 60000 ∧ (now - t) / 60000 < 1440)
            ∧ ¬ 1440 ≤ (now - t) / 60000)
          ∨ (¬ (now - t) / 60000 < 1
            ∧ ¬ (1 ≤ (now - t) / 60000 ∧ (now - t) / 60000 < 60)
            ∧ (60 ≤ (now - t) / 60000 ∧ (now - t) / 60000 < 1440)
            ∧ ¬ 1440 ≤ (now - t) / 60000)
          ∨ (¬ (now - t) / 60000 < 1
            ∧ ¬ (1 ≤ (now - t) / 60000 ∧ (now - t) / 60000 < 60)
            ∧ ¬ (60 ≤ (now - t) / 60000 ∧ (now - t) / 60000 < 1440)
            ∧ 1440 ≤ (now - t) / 60000))
      ∧ formatTime parseDate localeDate now none = "Never"
      ∧ formatTime parseDate localeDate now (some "") = "Never" := by
  have hfloor : 60000 * ((now - t) / 60000) ≤ now - t
      ∧ now - t < 60000 * ((now - t) / 60000) + 60000 := by
    constructor <;> omega
  have hjust : (now - t) / 60000 < 1 →
      formatTime parseDate localeDate now (some s) = "Just now" := by
    intro h
    simp [formatTime, hs, hp, h]
  refine ⟨hfloor, hjust, ?_, ?_, ?_, ?_, ?_, rfl, rfl⟩
  · intro h
    apply hjust
    omega
  · intro h1 h2
    have h0 : ¬ (now - t) / 60000 < 1 := by omega
    simp [formatTime, hs, hp, h0, h2]
  · intro h1 h2
    have h0 : ¬ (now - t) / 60000 < 1 := by omega
    have h3 : ¬ (now - t) / 60000 < 60 := by omega
    refine ⟨by simp [formatTime, hs, hp, h0, h3, h2], by omega, by omega⟩
  · intro h1
    have h0 : ¬ (now - t) / 60000 < 1 := by omega
    have h3 : ¬ (now - t) / 60000 < 60 := by omega
    have h4 : ¬ (now - t) / 60000 < 1440 := by omega
    simp [formatTime, hs, hp, h0, h3, h4]
  · omega

/-- C18 for the timestamp at 1000000 ms: 30 s before it (in the future),
5 minutes after it, and 3 hours 59 minutes after it. -/
theorem formatTime_ranges_witness :
    formatTime sampleParseDate sampleLocaleDate 970000 (some "2024-05-01T10:00:00Z")
        = "Just now"
      ∧ formatTime sampleParseDate sampleLocaleDate 1300000 (some "2024-05-01T10:00:00Z")
        = "5m ago"
      ∧ formatTime sampleParseDate sampleLocaleDate 15340000 (some "2024-05-01T10:00:00Z")
        = "3h ago" :=
  ⟨(formatTime_ranges sampleParseDate sampleLocaleDate 970000 1000000
      "2024-05-01T10:00:00Z" (by decide) (by decide)).2.2.1 (by decide),
   ((formatTime_ranges sampleParseDate sampleLocaleDate 1300000 1000000
      "2024-05-01T10:00:00Z" (by decide) (by decide)).2.2.2.1 (by decide) (by decide)).trans
      (by decide),
   ((formatTime_ranges sampleParseDate sampleLocaleDate 15340000 1000000
      "2024-05-01T10:00:00Z" (by decide) (by decide)).2.2.2.2.1 (by decide) (by decide)).1.trans
      (by decide)⟩

end SafeHome
